import Mathlib

/-!
Shallow embedding of the validation core of the `transport-validator` GTFS
validator, translated from the Rust sources under `src/`, together with
theorems settling the frozen claims about its specification.

Conventions of the embedding:
* `f64` values that the code only compares and combines by field arithmetic
  (coordinates, distances, durations, speeds) are modelled as `ℚ`; the one
  place where IEEE semantics matters (division by a zero duration in the
  speed rule) is modelled explicitly by `fdiv`, which produces an infinity
  the way IEEE-754 division of finite values does.
* External library calls (the `geo` haversine distance, `url` parsing,
  `chrono_tz` / `iso4217` / `isolang` lookups, and `gtfs_structures`'s
  linked-model construction `Gtfs::try_from`) are threaded through as
  parameters, bundled in `Externals`.
* Rust `HashMap`s / `BTreeMap`s are modelled as association lists; the
  claims under study do not depend on iteration order of these maps.
-/

namespace TV

/-- `Severity` from src/issues.rs. -/
inductive Severity where
  | Fatal | Error | Warning | Information
  deriving DecidableEq, Repr

/-- `IssueType` from src/issues.rs; includes the variants used by the
validator modules (`SubFolder`, `UnusableTrip`, `MissingAgencyId`,
`NoShape`, `NoCalendar`, `NegativeStopDuration`, `DuplicateStopSequence`). -/
inductive IssueType where
  | UnusedStop | Slow | ExcessiveSpeed | NegativeTravelTime | CloseStops
  | NullDuration | InvalidReference | InvalidArchive | MissingName | MissingId
  | MissingCoordinates | InvalidCoordinates | InvalidRouteType | MissingUrl
  | InvalidUrl | InvalidTimezone | DuplicateStops | MissingPrice
  | InvalidCurrency | InvalidTransfers | InvalidTransferDuration
  | MissingLanguage | InvalidLanguage | DuplicateObjectId | UnloadableModel
  | MissingMandatoryFile | ExtraFile | ImpossibleToInterpolateStopTimes
  | InvalidStopLocationTypeInTrip | InvalidStopParent | IdNotAscii
  | InvalidShapeId | UnusedShapeId | SubFolder | UnusableTrip
  | MissingAgencyId | NoShape | NoCalendar | NegativeStopDuration
  | DuplicateStopSequence
  deriving DecidableEq, Repr

/-- `gtfs_structures::ObjectType`. -/
inductive ObjectType where
  | Stop | Route | Trip | Agency | Calendar | Shape | Fare | Pathway | FeedInfo
  deriving DecidableEq, Repr

/-- `gtfs_structures::LocationType`. -/
inductive LocationType where
  | StopPoint | StopArea | StationEntrance | GenericNode | BoardingArea
  deriving DecidableEq, Repr

/-- `gtfs_structures::RouteType` (extended codes as `Other`). -/
inductive RouteType where
  | Tramway | Subway | Rail | Bus | Ferry | CableCar | Gondola | Funicular
  | Coach | Air | Taxi
  | Other (code : Int)
  deriving DecidableEq, Repr

/-- `RelatedObject` from src/issues.rs. -/
structure RelatedObject where
  id : String
  object_type : Option ObjectType
  name : Option String
  deriving DecidableEq, Repr

/-- `RelatedLine` from src/issues.rs. -/
structure RelatedLine where
  line_number : Nat
  headers : List String
  values : List String
  deriving DecidableEq, Repr

/-- `RelatedFile` from src/issues.rs. -/
structure RelatedFile where
  file_name : String
  line : Option RelatedLine
  deriving DecidableEq, Repr

/-- GeoJSON geometry, as much of the `geojson` crate as src/visualization.rs
builds: points and line strings over `[lon, lat]` positions. -/
inductive Geometry where
  | point (coords : List ℚ)
  | lineString (coords : List (List ℚ))
  deriving DecidableEq, Repr

/-- A GeoJSON feature as built by src/visualization.rs (`bbox`, `id` and
`foreign_members` are always `None` there and are omitted). -/
structure Feature where
  geometry : Option Geometry
  properties : Option (List (String × String))
  deriving DecidableEq, Repr

/-- A GeoJSON feature collection as built by src/visualization.rs. -/
structure FeatureCollection where
  features : List Feature
  deriving DecidableEq, Repr

/-- `Issue` from src/issues.rs. -/
structure Issue where
  severity : Severity
  issue_type : IssueType
  object_id : String
  object_type : Option ObjectType
  object_name : Option String
  related_objects : List RelatedObject
  details : Option String
  related_file : Option RelatedFile
  geojson : Option FeatureCollection
  deriving DecidableEq, Repr

/-- The `gtfs_structures::{Id, Type, Display}` trait bundle used by
`Issue::new_with_obj` and `push_related_object`. -/
class GtfsObj (α : Type) where
  gid : α → String
  gtype : α → ObjectType
  gdisplay : α → String

/-- `Issue::new` from src/issues.rs. -/
def Issue.new (severity : Severity) (issue_type : IssueType) (id : String) : Issue :=
  { severity, issue_type, object_id := id, object_type := none,
    object_name := none, related_objects := [], details := none,
    related_file := none, geojson := none }

/-- `Issue::new_with_obj` from src/issues.rs. -/
def Issue.new_with_obj [GtfsObj α] (severity : Severity) (issue_type : IssueType)
    (o : α) : Issue :=
  { severity, issue_type, object_id := GtfsObj.gid o,
    object_type := some (GtfsObj.gtype o),
    object_name := some (GtfsObj.gdisplay o), related_objects := [],
    details := none, related_file := none, geojson := none }

/-- `Issue::details` (builder) from src/issues.rs. -/
def Issue.withDetails (i : Issue) (d : String) : Issue := { i with details := some d }

/-- `Issue::name` (builder) from src/issues.rs. -/
def Issue.withName (i : Issue) (d : String) : Issue := { i with object_name := some d }

/-- `Issue::object_type` (builder) from src/issues.rs. -/
def Issue.withObjectType (i : Issue) (d : ObjectType) : Issue := { i with object_type := some d }

/-- `Issue::push_related_object` from src/issues.rs. -/
def Issue.push_related_object [GtfsObj α] (i : Issue) (o : α) : Issue :=
  { i with related_objects := i.related_objects ++
      [{ id := GtfsObj.gid o, name := some (GtfsObj.gdisplay o),
         object_type := some (GtfsObj.gtype o) }] }

/-- `Issue::add_related_object` from src/issues.rs (builder form of
`push_related_object`). -/
def Issue.add_related_object [GtfsObj α] (i : Issue) (o : α) : Issue :=
  i.push_related_object o

/-- `CustomRules` from src/custom_rules.rs. -/
structure CustomRules where
  max_tramway_speed : Option ℚ := none
  max_subway_speed : Option ℚ := none
  max_rail_speed : Option ℚ := none
  max_bus_speed : Option ℚ := none
  max_ferry_speed : Option ℚ := none
  max_cable_car_speed : Option ℚ := none
  max_gondola_speed : Option ℚ := none
  max_funicular_speed : Option ℚ := none
  max_coach_speed : Option ℚ := none
  max_air_speed : Option ℚ := none
  max_taxi_speed : Option ℚ := none
  max_other_speed : Option ℚ := none
  deriving DecidableEq, Repr

/-- `max_speed` from src/validators/duration_distance.rs: a km/h table
(custom override or default) divided by 3.6 to get m/s. -/
def max_speed (route_type : RouteType) (custom_rules : CustomRules) : ℚ :=
  (match route_type with
    | .Tramway => custom_rules.max_tramway_speed.getD 100
    | .Subway => custom_rules.max_subway_speed.getD 140
    | .Rail => custom_rules.max_rail_speed.getD 320
    | .Bus => custom_rules.max_bus_speed.getD 120
    | .Ferry => custom_rules.max_ferry_speed.getD 90
    | .CableCar => custom_rules.max_cable_car_speed.getD 30
    | .Gondola => custom_rules.max_gondola_speed.getD 45
    | .Funicular => custom_rules.max_funicular_speed.getD 40
    | .Coach => custom_rules.max_coach_speed.getD 120
    | .Air => custom_rules.max_air_speed.getD 1000
    | .Taxi => custom_rules.max_taxi_speed.getD 50
    | .Other _ => custom_rules.max_other_speed.getD 120) / (36 / 10)

/-- Result of IEEE-754 division of two finite `f64` values, with finite
results kept exact in `ℚ`. -/
inductive FDiv where
  | fin (q : ℚ)
  | posInf
  | negInf
  | nan
  deriving DecidableEq, Repr

/-- IEEE-754 division of finite values: finite quotient when the divisor is
nonzero, a signed infinity for `x/0` with `x ≠ 0`, and NaN for `0/0`. -/
def fdiv (num den : ℚ) : FDiv :=
  if den ≠ 0 then .fin (num / den)
  else if num > 0 then .posInf
  else if num < 0 then .negInf
  else .nan

/-- `<` against a finite bound after an IEEE division (`∞ < c` and
`NaN < c` are false). -/
def FDiv.ltc : FDiv → ℚ → Bool
  | .fin q, c => q < c
  | .posInf, _ => false
  | .negInf, _ => true
  | .nan, _ => false

/-- `>` against a finite bound after an IEEE division. -/
def FDiv.gtc : FDiv → ℚ → Bool
  | .fin q, c => q > c
  | .posInf, _ => true
  | .negInf, _ => false
  | .nan, _ => false

/-! ### GTFS entities (the parts of `gtfs_structures` the validators read) -/

/-- `gtfs_structures::Agency` (`id` is optional; `Id::id` falls back to `""`). -/
structure Agency where
  id : Option String
  name : String
  url : String
  timezone : String
  deriving DecidableEq, Repr

/-- `gtfs_structures::Stop` (the fields read by the validators). -/
structure Stop where
  id : String
  name : String
  location_type : LocationType
  parent_station : Option String
  longitude : Option ℚ
  latitude : Option ℚ
  deriving DecidableEq, Repr

/-- `gtfs_structures::StopTime` (the fields read by the validators; times are
seconds since midnight, `u32` in the source). -/
structure StopTime where
  arrival_time : Option Nat
  departure_time : Option Nat
  stop : Stop
  stop_sequence : Nat
  deriving DecidableEq, Repr

/-- `gtfs_structures::Route` (the fields read by the validators). -/
structure Route where
  id : String
  short_name : Option String
  long_name : Option String
  route_type : RouteType
  agency_id : Option String
  deriving DecidableEq, Repr

/-- `gtfs_structures::Trip` in the linked model. -/
structure Trip where
  id : String
  route_id : String
  service_id : String
  stop_times : List StopTime
  shape_id : Option String
  deriving DecidableEq, Repr

/-- `gtfs_structures::RawTrip` (row-level trip). -/
structure RawTrip where
  id : String
  route_id : String
  service_id : String
  deriving DecidableEq, Repr

/-- `gtfs_structures::RawStopTime` (the fields read by `invalid_reference`). -/
structure RawStopTime where
  trip_id : String
  stop_id : String
  deriving DecidableEq, Repr

/-- `gtfs_structures::Calendar` (keyed by service id). -/
structure Calendar where
  id : String
  deriving DecidableEq, Repr

/-- `gtfs_structures::CalendarDate` (the field read by `invalid_reference`). -/
structure CalendarDate where
  service_id : String
  deriving DecidableEq, Repr

/-- `gtfs_structures::Pathway` (the field read by `raw_gtfs`). -/
structure Pathway where
  id : String
  deriving DecidableEq, Repr

/-- `gtfs_structures::Transfers` of a fare. -/
inductive Transfers where
  | Unlimited | NoTransfer | UniqueTransfer | TwoTransfers
  | Other (code : Int)
  deriving DecidableEq, Repr

/-- `gtfs_structures::FareAttribute` (the fields read by the validators). -/
structure FareAttribute where
  id : String
  price : String
  currency : String
  transfers : Transfers
  transfer_duration : Option Int
  deriving DecidableEq, Repr

/-- `gtfs_structures::FeedInfo` (the fields read by the validators). -/
structure FeedInfo where
  name : String
  url : String
  lang : String
  deriving DecidableEq, Repr

/-- `gtfs_structures::Shape` (a single shape point row). -/
structure Shape where
  id : String
  sequence : Nat
  latitude : ℚ
  longitude : ℚ
  deriving DecidableEq, Repr

instance : GtfsObj Stop := ⟨Stop.id, fun _ => .Stop, Stop.name⟩

/-- `Display` of `gtfs_structures::Route`: the long name when set, the short
name otherwise. -/
def Route.display (r : Route) : String :=
  if (r.long_name.getD "").isEmpty then r.short_name.getD "" else r.long_name.getD ""

instance : GtfsObj Route := ⟨Route.id, fun _ => .Route, Route.display⟩

/-- `Display` of `gtfs_structures::Trip` / `RawTrip`:
`route id: …, service id: …`. -/
def Trip.display (t : Trip) : String :=
  "route id: " ++ t.route_id ++ ", service id: " ++ t.service_id

instance : GtfsObj Trip := ⟨Trip.id, fun _ => .Trip, Trip.display⟩

def RawTrip.display (t : RawTrip) : String :=
  "route id: " ++ t.route_id ++ ", service id: " ++ t.service_id

instance : GtfsObj RawTrip := ⟨RawTrip.id, fun _ => .Trip, RawTrip.display⟩

instance : GtfsObj Agency := ⟨fun a => a.id.getD "", fun _ => .Agency, Agency.name⟩

instance : GtfsObj Calendar := ⟨Calendar.id, fun _ => .Calendar, Calendar.id⟩

instance : GtfsObj Pathway := ⟨Pathway.id, fun _ => .Pathway, Pathway.id⟩

instance : GtfsObj FareAttribute := ⟨FareAttribute.id, fun _ => .Fare, FareAttribute.id⟩

instance : GtfsObj FeedInfo := ⟨fun _ => "", fun _ => .FeedInfo, FeedInfo.name⟩

instance : GtfsObj Shape := ⟨Shape.id, fun _ => .Shape, Shape.id⟩

/-- The headers/values of the row a CSV decode failure points at
(`csv`'s deserialize error payload, as read in src/validate.rs). -/
structure LineError where
  headers : List String
  values : List String
  deriving DecidableEq, Repr

/-- `gtfs_structures::Error`, as far as the core inspects it: the `CSVError`
variant is matched structurally in src/validate.rs; every other variant only
flows through `Display`/`source`. `position_line` is `source.position()`'s
line number. -/
inductive GError where
  | CSVError (file_name : String) (position_line : Option Nat)
      (line_in_error : Option LineError) (source_msg : String)
  | ReferenceError (id : String)
  | OtherError (msg : String)
  deriving DecidableEq, Repr

/-- `Display` of `gtfs_structures::Error`. -/
def GError.display : GError → String
  | .CSVError fn _ _ _ => "impossible to read csv file \x27" ++ fn ++ "\x27"
  | .ReferenceError id => "\x27" ++ id ++ "\x27 referenced by an object, but not found"
  | .OtherError m => m

/-- `Error::source()`’s message: only `CSVError` carries an inner error. -/
def GError.sourceMsg : GError → Option String
  | .CSVError _ _ _ m => some m
  | _ => none

/-- The linked model `gtfs_structures::Gtfs`: maps are modelled by their
value lists (they are keyed by the objects' own ids), except `shapes` and
the calendars where the key is used directly. -/
structure Gtfs where
  stops : List Stop
  routes : List Route
  trips : List Trip
  agencies : List Agency
  shapes : List (String × List Shape)
  fare_attributes : List FareAttribute
  feed_info : List FeedInfo
  calendar : List Calendar
  calendar_dates : List (String × List CalendarDate)
  deriving Repr

/-- `gtfs_structures::RawGtfs`: per-file outcomes. -/
structure RawGtfs where
  files : List String
  stops : Except GError (List Stop)
  routes : Except GError (List Route)
  trips : Except GError (List RawTrip)
  agencies : Except GError (List Agency)
  stop_times : Except GError (List RawStopTime)
  calendar : Option (Except GError (List Calendar))
  calendar_dates : Option (Except GError (List CalendarDate))
  shapes : Option (Except GError (List Shape))
  pathways : Option (Except GError (List Pathway))
  fare_attributes : Option (Except GError (List FareAttribute))
  deriving Repr

/-- External library functions the validators call, passed as parameters of
the embedding: `url::Url::parse` (its scheme on success), `chrono_tz` and
`iso4217` lookups, the three `isolang` lookups, and the `geo` crate's
haversine distance (arguments `lon₁ lat₁ lon₂ lat₂`, result in metres). -/
structure Externals where
  urlScheme : String → Option String
  tzOk : String → Bool
  iso4217 : String → Bool
  lang1 : String → Bool
  lang3 : String → Bool
  langLocale : String → Bool
  haversine : ℚ → ℚ → ℚ → ℚ → ℚ

/-- `Gtfs::get_route`. -/
def Gtfs.get_route (g : Gtfs) (route_id : String) : Except GError Route :=
  match g.routes.find? (fun r => r.id == route_id) with
  | some r => .ok r
  | none => .error (.ReferenceError route_id)

/-! ### Association-list helpers, modelling `HashMap`/`BTreeMap` use sites -/

/-- `map.entry(k).or_insert_with(dflt)` followed by an in-place update `f`
of the entry (`f` is applied to the default when the key is new). -/
def entryUpdate [DecidableEq κ] : List (κ × ν) → κ → ν → (ν → ν) → List (κ × ν)
  | [], k, dflt, f => [(k, f dflt)]
  | (k', v) :: rest, k, dflt, f =>
      if k' = k then (k', f v) :: rest else (k', v) :: entryUpdate rest k dflt f

/-- Association-list lookup (`HashMap::get`). -/
def lookupA [DecidableEq κ] : List (κ × ν) → κ → Option ν
  | [], _ => none
  | (k', v) :: rest, k => if k' = k then some v else lookupA rest k

/-- `HashSet::insert` on a list kept duplicate-free. -/
def insertSet [DecidableEq α] (s : List α) (x : α) : List α :=
  if x ∈ s then s else s ++ [x]

/-- `itertools::tuple_windows` for pairs. -/
def windows2 : List α → List (α × α)
  | a :: b :: rest => (a, b) :: windows2 (b :: rest)
  | _ => []

/-- `itertools::tuple_combinations` for pairs. -/
def combos2 : List α → List (α × α)
  | [] => []
  | a :: rest => rest.map (fun b => (a, b)) ++ combos2 rest

/-- `str::ends_with`, over the character list (so that concrete runs reduce
in the kernel). -/
def strEndsWith (s suffix : String) : Bool := suffix.data.isSuffixOf s.data

/-! ### Raw-level rules -/

/-- Loop body of `check_duplicates` in src/validators/raw_gtfs.rs: walk the
rows keeping the set of seen ids, emitting one issue per repeated id. -/
def cd_go [GtfsObj α] : List α → List String → List Issue
  | [], _ => []
  | o :: rest, ids =>
      let id := GtfsObj.gid o
      (if id ∈ ids then
        [(Issue.new .Error .DuplicateObjectId id).withObjectType (GtfsObj.gtype o)]
      else []) ++ cd_go rest (insertSet ids id)

/-- `check_duplicates` from src/validators/raw_gtfs.rs. -/
def check_duplicates [GtfsObj α] (objects : Except GError (List α)) : List Issue :=
  cd_go (objects.toOption.getD []) []

/-- `MAX_DISPLAYED_PT_SEQUENCES` from src/validators/raw_gtfs.rs. -/
def MAX_DISPLAYED_PT_SEQUENCES : Nat := 10

/-- Loop of `check_shapes_duplicates`: seen `(shape_id, pt_sequence)` keys,
and per-shape list of duplicated sequence numbers. -/
def csd_go : List Shape → List (String × Nat) → List (String × List Nat) →
    List (String × List Nat)
  | [], _, m => m
  | shape :: rest, ids, m =>
      let key := (shape.id, shape.sequence)
      let m' := if key ∈ ids then entryUpdate m shape.id [] (· ++ [shape.sequence]) else m
      csd_go rest (insertSet ids key) m'

/-- `check_shapes_duplicates` from src/validators/raw_gtfs.rs. -/
def check_shapes_duplicates (objects : Except GError (List Shape)) : List Issue :=
  (csd_go (objects.toOption.getD []) [] []).map fun p =>
    let more_dup := if p.2.length > MAX_DISPLAYED_PT_SEQUENCES then "…" else ""
    let d := "Shape has duplicated pt_sequence: " ++
      String.intercalate ", " ((p.2.take MAX_DISPLAYED_PT_SEQUENCES).map toString) ++ more_dup
    (((Issue.new .Error .DuplicateObjectId p.1).withObjectType .Shape).withDetails d)

namespace raw_gtfs

/-- `validate` from src/validators/raw_gtfs.rs. -/
def validate (rg : RawGtfs) : List Issue :=
  check_duplicates rg.stops ++ check_duplicates rg.routes ++ check_duplicates rg.trips ++
  check_duplicates rg.agencies ++ check_duplicates (rg.pathways.getD (.ok [])) ++
  check_duplicates (rg.calendar.getD (.ok [])) ++
  check_duplicates (rg.fare_attributes.getD (.ok [])) ++
  check_shapes_duplicates (rg.shapes.getD (.ok []))

end raw_gtfs

namespace invalid_reference

/-- `get_ids` from src/validators/invalid_reference.rs (the `HashSet` is kept
as a list; only membership is consulted). -/
def get_ids [GtfsObj α] (objects : List α) : List String := objects.map GtfsObj.gid

/-- `Ids` from src/validators/invalid_reference.rs. -/
structure Ids where
  ids : List (ObjectType × List String)

/-- `Ids::new` from src/validators/invalid_reference.rs. -/
def Ids.new (rg : RawGtfs) : Ids :=
  let m : List (ObjectType × List String) := []
  let m := match rg.trips with
    | .ok trips => entryUpdate m .Trip [] (fun _ => get_ids trips) | _ => m
  let m := match rg.stops with
    | .ok stops => entryUpdate m .Stop [] (fun _ => get_ids stops) | _ => m
  let m := match rg.routes with
    | .ok routes => entryUpdate m .Route [] (fun _ => get_ids routes) | _ => m
  let m := match rg.calendar with
    | some (.ok calendar) => entryUpdate m .Calendar [] (fun _ => get_ids calendar) | _ => m
  let m := match rg.agencies with
    | .ok agency => entryUpdate m .Agency [] (fun _ => get_ids agency) | _ => m
  let m := match rg.calendar_dates with
    | some (.ok calendar_dates) =>
        entryUpdate m .Calendar [] (· ++ calendar_dates.map CalendarDate.service_id)
    | _ => m
  ⟨m⟩

/-- `Ids::check_ref` from src/validators/invalid_reference.rs. -/
def Ids.check_ref (self : Ids) (id : String) (object_type : ObjectType) : Option Issue :=
  (lookupA self.ids object_type).bind fun ids =>
    if id ∈ ids then none
    else some ((Issue.new .Fatal .InvalidReference id).withObjectType object_type)

/-- The `.map(|i| (i.object_id.clone(), i)).collect::<HashMap<_, _>>()
.into_values()` dedup step used by all four checks (later entries replace
earlier ones with the same object id). -/
def dedup_by_object_id (l : List Issue) : List Issue :=
  (l.foldl (fun m i => entryUpdate m i.object_id i (fun _ => i)) []).map Prod.snd

/-- `Ids::check_stop_times` from src/validators/invalid_reference.rs. -/
def Ids.check_stop_times (self : Ids)
    (stop_times : Except GError (List RawStopTime)) : List Issue :=
  let sts := stop_times.toOption.getD []
  dedup_by_object_id
    ((sts.filterMap fun st =>
      (self.check_ref st.trip_id .Trip).map
        (·.withDetails "The trip is referenced by a stop time but does not exist")) ++
     (sts.filterMap fun st =>
      (self.check_ref st.stop_id .Stop).map
        (·.withDetails "The stop is referenced by a stop time but does not exist")))

/-- `Ids::check_trips` from src/validators/invalid_reference.rs. -/
def Ids.check_trips (self : Ids) (trips : Except GError (List RawTrip)) : List Issue :=
  let ts := trips.toOption.getD []
  dedup_by_object_id
    ((ts.filterMap fun trip =>
      (self.check_ref trip.service_id .Calendar).map
        (fun i => (i.withDetails "The service is referenced by a trip but does not exist").add_related_object trip)) ++
     (ts.filterMap fun trip =>
      (self.check_ref trip.route_id .Route).map
        (fun i => (i.withDetails "The route is referenced by a trip but does not exist").add_related_object trip)))

/-- `Ids::check_routes` from src/validators/invalid_reference.rs. -/
def Ids.check_routes (self : Ids) (routes : Except GError (List Route)) : List Issue :=
  dedup_by_object_id
    ((routes.toOption.getD []).filterMap fun route =>
      route.agency_id.bind fun agency_id =>
        (self.check_ref agency_id .Agency).map
          (fun i => (i.withDetails "The agency is referenced by a route but does not exist").add_related_object route))

/-- `Ids::check_stops` from src/validators/invalid_reference.rs. -/
def Ids.check_stops (self : Ids) (stops : Except GError (List Stop)) : List Issue :=
  dedup_by_object_id
    ((stops.toOption.getD []).filterMap fun stop =>
      stop.parent_station.bind fun parent_station_id =>
        (self.check_ref parent_station_id .Stop).map
          (fun i => (i.withDetails "The stop is referenced as a stop\x27s parent_station but does not exist").add_related_object stop))

/-- `validate` from src/validators/invalid_reference.rs. -/
def validate (rg : RawGtfs) : List Issue :=
  let id_container := Ids.new rg
  id_container.check_stop_times rg.stop_times ++ id_container.check_trips rg.trips ++
  id_container.check_routes rg.routes ++ id_container.check_stops rg.stops

end invalid_reference

namespace file_presence

/-- `MANDATORY_FILES` from src/validators/file_presence.rs. -/
def MANDATORY_FILES : List String :=
  ["agency.txt", "routes.txt", "stops.txt", "stop_times.txt", "trips.txt"]

/-- `OPTIONAL_FILES` from src/validators/file_presence.rs. -/
def OPTIONAL_FILES : List String :=
  ["fare_attributes.txt", "calendar.txt", "calendar_dates.txt", "fare_rules.txt",
   "fare_media.txt", "fare_products.txt", "fare_leg_rules.txt", "fare_leg_join_rules.txt",
   "feed_info.txt", "frequencies.txt", "transfers.txt", "shapes.txt", "pathways.txt",
   "levels.txt", "feed_info.txt", "translations.txt", "attributions.txt", "timeframes.txt",
   "areas.txt", "stop_areas.txt", "networks.txt", "route_networks.txt",
   "location_groups.txt", "location_group_stops.txt", "locations.geojson",
   "booking_rules.txt"]

/-- `missing_files` from src/validators/file_presence.rs. -/
def missing_files (rg : RawGtfs) : List Issue :=
  (MANDATORY_FILES.filter fun m => ¬ rg.files.any (fun f => strEndsWith f m)).map fun m =>
    (Issue.new .Fatal .MissingMandatoryFile m).withDetails "The mandatory file was not found"

/-- `extra_files` from src/validators/file_presence.rs. -/
def extra_files (rg : RawGtfs) : List Issue :=
  (rg.files.filter fun f =>
      ¬ MANDATORY_FILES.any (fun m => strEndsWith f m) ∧
      ¬ OPTIONAL_FILES.any (fun o => strEndsWith f o)).map fun f =>
    (Issue.new .Information .ExtraFile f).withDetails "This file shouldn’t be in the archive"

/-- `validate` from src/validators/file_presence.rs. -/
def validate (rg : RawGtfs) : List Issue := missing_files rg ++ extra_files rg

end file_presence

namespace sub_folder

/-- `std::path::Path::parent` for the (slash-separated) names occurring in a
GTFS archive listing: drop the final component; a bare file name has parent
`""`, the empty path has none. -/
def pathParent (f : String) : Option String :=
  match (f.data.splitOn '/').dropLast with
  | [] => if f = "" then none else some ""
  | parts => some ⟨List.intercalate ['/'] parts⟩

/-- `validate` from src/validators/sub_folder.rs. -/
def validate (rg : RawGtfs) : List Issue :=
  match (rg.files.filter (fun f => strEndsWith f "stops.txt")).findSome? (fun f =>
      -- Note: the parent of a file can be Some(""), filtered explicitly
      match pathParent f with
      | some p => if p.isEmpty then none else some p
      | none => none) with
  | some parent =>
      [(Issue.new .Error .SubFolder parent).withDetails
        ("Data is contained in sub solder: " ++ parent)]
  | none => []

end sub_folder

/-! ### Linked-level rules -/

namespace unused_stop

/-- `make_unused_stop_issue` from src/validators/unused_stop.rs. -/
def make_unused_stop_issue (stop : Stop) : Issue :=
  Issue.new_with_obj .Information .UnusedStop stop

/-- `validate` from src/validators/unused_stop.rs: stops used by a stop time
are marked used, then (in one pass over the stops) the parent of an
already-used stop is marked used; `StopPoint`/`StopArea` stops not marked
used are reported. -/
def validate (g : Gtfs) : List Issue :=
  let used_stops := g.trips.foldl
    (fun s trip => trip.stop_times.foldl (fun s st => insertSet s st.stop.id) s) []
  let used_stops := g.stops.foldl
    (fun s stop =>
      match stop.parent_station with
      | some parent => if stop.id ∈ s then insertSet s parent else s
      | none => s) used_stops
  ((g.stops.filter fun stop =>
      stop.location_type = .StopPoint ∨ stop.location_type = .StopArea).filter
    fun stop => stop.id ∉ used_stops).map make_unused_stop_issue

end unused_stop

namespace check_name

/-- `empty_name` from src/validators/check_name.rs (`Display` is empty). -/
def empty_name [GtfsObj α] (o : α) : Bool := (GtfsObj.gdisplay o).isEmpty

/-- `empty_route_name` from src/validators/check_name.rs. -/
def empty_route_name (r : Route) : Bool :=
  (r.short_name.map String.isEmpty).getD true && (r.long_name.map String.isEmpty).getD true

/-- `make_missing_name_issue` from src/validators/check_name.rs. -/
def make_missing_name_issue [GtfsObj α] (o : α) : Issue :=
  Issue.new_with_obj .Error .MissingName o

/-- `validate` from src/validators/check_name.rs. -/
def validate (g : Gtfs) : List Issue :=
  (g.routes.filter empty_route_name).map make_missing_name_issue ++
  (((g.stops.filter fun stop =>
      stop.location_type ∈ [LocationType.StopPoint, .StopArea, .StationEntrance]).filter
    empty_name).map make_missing_name_issue) ++
  (g.agencies.filter empty_name).map make_missing_name_issue ++
  (g.feed_info.filter empty_name).map (fun _ => Issue.new .Error .MissingName "")

end check_name

namespace check_id

/-- `str::is_ascii`, over the character list (so that concrete runs reduce
in the kernel). -/
def isAscii (s : String) : Bool := s.data.all (fun c => c.toNat ≤ 127)

/-- `valid_id` from src/validators/check_id.rs. -/
def valid_id [GtfsObj α] (o : α) : Option Issue :=
  if ¬ isAscii (GtfsObj.gid o) then
    some (Issue.new_with_obj .Warning .IdNotAscii o)
  else if (GtfsObj.gid o).isEmpty then
    some (Issue.new_with_obj .Error .MissingId o)
  else none

/-- `validate` from src/validators/check_id.rs. -/
def validate (g : Gtfs) : List Issue :=
  let r := g.routes.filterMap valid_id
  let t := g.trips.filterMap valid_id
  let c := g.calendar.filterMap valid_id
  let st := g.stops.filterMap valid_id
  let sh := (g.shapes.filter fun p => p.1.isEmpty).map fun _ =>
    { severity := .Error, issue_type := .MissingId, object_id := "",
      object_type := some .Shape, object_name := none, related_objects := [],
      details := none, related_file := none, geojson := none }
  let chain := r ++ t ++ c ++ st ++ sh
  if g.agencies.length > 1 then g.agencies.filterMap valid_id ++ chain else chain

end check_id

namespace stops

/-- `has_coord` from src/validators/stops.rs (the source binds latitude
first, then longitude, and requires both nonzero). -/
def has_coord (stop : Stop) : Bool :=
  match stop.latitude, stop.longitude with
  | some lon, some lat => lon ≠ 0 ∧ lat ≠ 0
  | _, _ => false

/-- `make_invalid_coord_issue` from src/validators/stops.rs. -/
def make_invalid_coord_issue (o : Stop) : Issue :=
  Issue.new_with_obj .Error .InvalidCoordinates o

/-- `make_missing_coord_issue` from src/validators/stops.rs. -/
def make_missing_coord_issue (o : Stop) : Issue :=
  Issue.new_with_obj .Warning .MissingCoordinates o

/-- `make_invalid_parent_issue` from src/validators/stops.rs. -/
def make_invalid_parent_issue (o : Stop) : Issue :=
  Issue.new_with_obj .Warning .InvalidStopParent o

/-- The details match of `check_coord` from src/validators/stops.rs. -/
def missing_details (lonO latO : Option ℚ) : String :=
  match lonO, latO with
  | none, none => "Latitude and longitude are missing"
  | some lon, some lat =>
      if lon = 0 ∧ lat = 0 then "Latitude and longitude are missing"
      else if lon = 0 then "Longitude is missing"
      else if lat = 0 then "Latitude is missing"
      else "Coordinates are ok"
  | some lon, none => if lon = 0 then "Longitude is missing" else "Coordinates are ok"
  | none, some lat => if lat = 0 then "Latitude is missing" else "Coordinates are ok"

/-- `check_coord` from src/validators/stops.rs. -/
def check_coord (stop : Stop) : Option Issue :=
  if stop.location_type ≠ .GenericNode ∧ stop.location_type ≠ .BoardingArea ∧
      ¬ has_coord stop then
    some ((make_missing_coord_issue stop).withDetails
      (missing_details stop.longitude stop.latitude))
  else none

/-- `valid_coord` from src/validators/stops.rs. -/
def valid_coord (stop : Stop) : Bool :=
  match stop.longitude, stop.latitude with
  | some lon, some lat => -180 ≤ lon ∧ lon ≤ 180 ∧ -90 ≤ lat ∧ lat ≤ 90
  | _, _ => false

/-- `validate_coord` from src/validators/stops.rs. -/
def validate_coord (g : Gtfs) : List Issue :=
  g.stops.filterMap check_coord ++
  (g.stops.filter fun stop => ¬ valid_coord stop).map make_invalid_coord_issue

/-- The `details` match of `validate_parent_id` from src/validators/stops.rs. -/
def parent_details (stop : Stop) (parent : Option Stop) : Option String :=
  match stop.location_type with
  | .StopArea =>
      stop.parent_station.map fun _ =>
        "it\x27s not valid for a stop area to have a parent station"
  | .StopPoint =>
      parent.bind fun parent =>
        if parent.location_type ≠ .StopArea then
          some "The parent of a stop point should be a stop area"
        else none
  | .GenericNode | .StationEntrance =>
      if (parent.map fun parent => decide (parent.location_type ≠ .StopArea)).getD true then
        some "The parent of a generic node or an entrance should be a stop area"
      else none
  | .BoardingArea =>
      if (parent.map fun parent => decide (parent.location_type ≠ .StopPoint)).getD true then
        some "The parent of a boarding area should be a stop point"
      else none

/-- `validate_parent_id` from src/validators/stops.rs. -/
def validate_parent_id (g : Gtfs) : List Issue :=
  g.stops.filterMap fun stop =>
    let parent := stop.parent_station.bind fun p => g.stops.find? (fun s => s.id == p)
    (parent_details stop parent).map fun details =>
      match parent with
      | some p => ((make_invalid_parent_issue stop).withDetails details).push_related_object p
      | none => (make_invalid_parent_issue stop).withDetails details

/-- `validate` from src/validators/stops.rs. -/
def validate (g : Gtfs) : List Issue := validate_coord g ++ validate_parent_id g

end stops

namespace route_type

/-- `get_non_standard_route_type` from src/validators/route_type.rs. -/
def get_non_standard_route_type (route : Route) : Option (Route × Int) :=
  match route.route_type with
  | .Other rt => some (route, rt)
  | _ => none

/-- `validate` from src/validators/route_type.rs (this, not
src/validators/routes.rs, is what src/validate.rs runs). -/
def validate (g : Gtfs) : List Issue :=
  (g.routes.filterMap get_non_standard_route_type).map fun p =>
    (Issue.new_with_obj .Information .InvalidRouteType p.1).withDetails
      ("The route type \x27" ++ toString p.2 ++ "\x27 is not part of the main GTFS specification")

end route_type

namespace routes

/-- `validate` from src/validators/routes.rs: the `InvalidRouteType` part of
route_type.rs plus `MissingAgencyId` for unset agency ids when there is more
than one agency. (Not invoked by src/validate.rs.) -/
def validate (g : Gtfs) : List Issue :=
  let invalid_route_type :=
    (g.routes.filterMap route_type.get_non_standard_route_type).map fun p =>
      (Issue.new_with_obj .Information .InvalidRouteType p.1).withDetails
        ("The route type \x27" ++ toString p.2 ++ "\x27 is not part of the main GTFS specification")
  let missing_agency_id :=
    if g.agencies.length > 1 then
      (g.routes.filter fun route => route.agency_id = none).map fun route =>
        (Issue.new_with_obj .Error .MissingAgencyId route).withDetails
          ("The agency ID must be filled for route \x27" ++ route.id ++ "\x27")
    else []
  invalid_route_type ++ missing_agency_id

end routes

namespace shapes

/-- `has_coord` from src/validators/shapes.rs. -/
def has_coord (shape : Shape) : Bool := shape.latitude ≠ 0 ∧ shape.longitude ≠ 0

/-- `valid_coord` from src/validators/shapes.rs. -/
def valid_coord (shape : Shape) : Bool :=
  shape.longitude ≤ 180 ∧ -180 ≤ shape.longitude ∧ shape.latitude ≤ 90 ∧ -90 ≤ shape.latitude

/-- `create_invalid_shape_id_issue` from src/validators/shapes.rs. -/
def create_invalid_shape_id_issue (trip : Trip) (g : Gtfs) : Option Issue :=
  trip.shape_id.bind fun shape_id =>
    if g.shapes.any (fun p => p.1 == shape_id) then none
    else some (((Issue.new .Error .InvalidShapeId trip.id).withObjectType .Trip).withDetails
      ("invalid shape id: " ++ shape_id))

/-- `validate` from src/validators/shapes.rs. -/
def validate (g : Gtfs) : List Issue :=
  let missing_coord := (g.shapes.filter fun p => ¬ p.2.all has_coord).map fun p =>
    (Issue.new .Warning .MissingCoordinates p.1).withObjectType .Shape
  let valid := (g.shapes.filter fun p => ¬ p.2.all valid_coord).map fun p =>
    (Issue.new .Error .InvalidCoordinates p.1).withObjectType .Shape
  let invalid_shape_id := g.trips.filterMap fun trip => create_invalid_shape_id_issue trip g
  let used_shape_id := g.trips.filterMap Trip.shape_id
  let unused_shape_id :=
    ((g.shapes.map Prod.fst).filter fun id => id ∉ used_shape_id).map fun id =>
      (Issue.new .Information .UnusedShapeId id).withObjectType .Shape
  let trip_without_shaped := (g.trips.filter fun trip => trip.shape_id = none).map fun trip =>
    Issue.new_with_obj .Information .NoShape trip
  missing_coord ++ valid ++ invalid_shape_id ++ unused_shape_id ++ trip_without_shaped

end shapes

namespace agency

/-- `has_url` from src/validators/agency.rs. -/
def has_url (agency : Agency) : Bool := ¬ agency.url.isEmpty

/-- `valid_url` from src/validators/agency.rs (`url::Url::parse` through
`Externals`). -/
def valid_url (ext : Externals) (agency : Agency) : Bool :=
  match ext.urlScheme agency.url with
  | some scheme => scheme ∈ ["https", "http"]
  | none => false

/-- `valid_timezone` from src/validators/agency.rs (`chrono_tz` through
`Externals`). -/
def valid_timezone (ext : Externals) (agency : Agency) : Bool := ext.tzOk agency.timezone

/-- `validate` from src/validators/agency.rs. -/
def validate (ext : Externals) (g : Gtfs) : List Issue :=
  (g.agencies.filter fun agency => ¬ has_url agency).map
    (fun agency => Issue.new_with_obj .Error .MissingUrl agency) ++
  ((g.agencies.filter fun agency => has_url agency ∧ ¬ valid_url ext agency).map
    fun agency =>
      (Issue.new_with_obj .Error .InvalidUrl agency).withDetails
        ("The agency_url (in agency.txt) " ++ agency.url ++ " is invalid")) ++
  (g.agencies.filter fun agency => ¬ valid_timezone ext agency).map
    (fun agency => Issue.new_with_obj .Error .InvalidTimezone agency)

end agency

namespace calendar

/-- `validate` from src/validators/calendar.rs. -/
def validate (g : Gtfs) : List Issue :=
  if g.calendar.length + g.calendar_dates.length = 0 then
    [Issue.new .Warning .NoCalendar ""]
  else []

end calendar

namespace duplicate_stops

/-- `too_close_stops` from src/validators/duplicate_stops.rs. -/
def too_close_stops (ext : Externals) (stop_a stop_b : Stop) : Bool :=
  match stop_a.longitude, stop_a.latitude, stop_b.longitude, stop_b.latitude with
  | some lon_a, some lat_a, some lon_b, some lat_b =>
      match stop_a.location_type with
      | .StopPoint => ext.haversine lon_a lat_a lon_b lat_b < 2
      | .StopArea => ext.haversine lon_a lat_a lon_b lat_b < 100
      | _ => false
  | _, _, _, _ => false

/-- `duplicate_stops` (the pair predicate) from
src/validators/duplicate_stops.rs. -/
def duplicate_stops_pred (ext : Externals) (stop_a stop_b : Stop) : Bool :=
  stop_a.name == stop_b.name && stop_a.location_type == stop_b.location_type &&
  too_close_stops ext stop_a stop_b

/-- `make_duplicate_stops_issue` from src/validators/duplicate_stops.rs. -/
def make_duplicate_stops_issue (a b : Stop) : Issue :=
  (Issue.new_with_obj .Information .DuplicateStops a).add_related_object b

/-- `validate` from src/validators/duplicate_stops.rs. -/
def validate (ext : Externals) (g : Gtfs) : List Issue :=
  (((combos2 (g.stops.filter fun stop => stop.location_type ≠ .StationEntrance)).filter
    fun p => duplicate_stops_pred ext p.1 p.2).map
    fun p => make_duplicate_stops_issue p.1 p.2)

end duplicate_stops

namespace fare_attributes

/-- `make_issue` from src/validators/fare_attributes.rs. -/
def make_issue (o : FareAttribute) (issue_type : IssueType) : Issue :=
  (Issue.new .Error issue_type o.id).withObjectType .Fare

/-- `has_price` from src/validators/fare_attributes.rs. -/
def has_price (f : FareAttribute) : Bool := ¬ f.price.isEmpty

/-- `valid_currency` from src/validators/fare_attributes.rs (`iso4217`
through `Externals`). -/
def valid_currency (ext : Externals) (f : FareAttribute) : Bool := ext.iso4217 f.currency

/-- `valid_transfers` from src/validators/fare_attributes.rs. -/
def valid_transfers (f : FareAttribute) : Bool :=
  match f.transfers with
  | .Other _ => false
  | _ => true

/-- `valid_duration` from src/validators/fare_attributes.rs. -/
def valid_duration (f : FareAttribute) : Bool :=
  match f.transfer_duration with
  | none => true
  | some d => 0 ≤ d

/-- `validate` from src/validators/fare_attributes.rs. -/
def validate (ext : Externals) (g : Gtfs) : List Issue :=
  (g.fare_attributes.filter fun f => ¬ has_price f).map (make_issue · .MissingPrice) ++
  (g.fare_attributes.filter fun f => ¬ valid_currency ext f).map (make_issue · .InvalidCurrency) ++
  (g.fare_attributes.filter fun f => ¬ valid_transfers f).map (make_issue · .InvalidTransfers) ++
  (g.fare_attributes.filter fun f => ¬ valid_duration f).map (make_issue · .InvalidTransferDuration)

end fare_attributes

namespace feed_info

/-- `make_issue` from src/validators/feed_info.rs. -/
def make_issue (feed : FeedInfo) (severity : Severity) (issue_type : IssueType) : Issue :=
  (Issue.new severity issue_type "").withName feed.name

/-- `is_missing_url` from src/validators/feed_info.rs. -/
def is_missing_url (feed : FeedInfo) : Bool := feed.url.isEmpty

/-- `is_invalid_url` from src/validators/feed_info.rs. -/
def is_invalid_url (ext : Externals) (feed : FeedInfo) : Bool :=
  !((ext.urlScheme feed.url).map (fun scheme => decide (scheme ∈ ["https", "http"]))).getD false

/-- `missing_lang` from src/validators/feed_info.rs. -/
def missing_lang (feed : FeedInfo) : Bool := feed.lang.isEmpty

/-- `invalid_lang` from src/validators/feed_info.rs (the three `isolang`
lookups through `Externals`). -/
def invalid_lang (ext : Externals) (feed : FeedInfo) : Bool :=
  let lang := feed.lang.toLower
  let len := lang.length
  !(if len = 2 then ext.lang1 lang
    else if len = 3 then ext.lang3 lang
    else if 4 ≤ len ∧ len ≤ 11 then ext.langLocale lang
    else false)

/-- `validate` from src/validators/feed_info.rs. -/
def validate (ext : Externals) (g : Gtfs) : List Issue :=
  (g.feed_info.filter is_missing_url).map (make_issue · .Error .MissingUrl) ++
  ((g.feed_info.filter fun fi => ¬ is_missing_url fi ∧ is_invalid_url ext fi).map
    fun fi => (make_issue fi .Error .InvalidUrl).withDetails
      ("The feed_publisher_url (in feed_info.txt) " ++ fi.url ++ " is invalid")) ++
  (g.feed_info.filter missing_lang).map (make_issue · .Warning .MissingLanguage) ++
  ((g.feed_info.filter (invalid_lang ext)).map
    fun fi => (make_issue fi .Warning .InvalidLanguage).withDetails
      ("Language code " ++ fi.lang ++ " does not exist"))

end feed_info

namespace stop_times

/-- `MAX_TRIPS` from src/validators/stop_times.rs. -/
def MAX_TRIPS : Nat := 20

/-- `Debug` rendering of a `LocationType` (for the `{:?}` in
`check_location_type`). -/
def locDebug : LocationType → String
  | .StopPoint => "StopPoint"
  | .StopArea => "StopArea"
  | .StationEntrance => "StationEntrance"
  | .GenericNode => "GenericNode"
  | .BoardingArea => "BoardingArea"

/-- The per-stop-time accumulator step of `check_location_type` from
src/validators/stop_times.rs: a map from stop id to its issue, appending the
referencing trip while fewer than `MAX_TRIPS` related objects are present. -/
def clt_step (trip : Trip) (m : List (String × Issue)) (st : StopTime) :
    List (String × Issue) :=
  if st.stop.location_type ≠ .StopPoint then
    entryUpdate m st.stop.id
      ((Issue.new_with_obj .Warning .InvalidStopLocationTypeInTrip st.stop).withDetails
        ("A " ++ locDebug st.stop.location_type ++ " cannot be referenced by a stop time"))
      (fun issue =>
        if issue.related_objects.length < MAX_TRIPS then issue.push_related_object trip
        else issue)
  else m

/-- `check_location_type` from src/validators/stop_times.rs. -/
def check_location_type (g : Gtfs) : List Issue :=
  (g.trips.foldl (fun m trip => trip.stop_times.foldl (clt_step trip) m) []).map Prod.snd

/-- `check_valid_stop_sequence` from src/validators/stop_times.rs. -/
def check_valid_stop_sequence (g : Gtfs) : List Issue :=
  g.trips.filterMap fun trip =>
    let stop_with_same_sequence :=
      ((windows2 trip.stop_times).filterMap fun p =>
        if p.1.stop_sequence = p.2.stop_sequence then some [p.1, p.2] else none).flatten
    if ¬ stop_with_same_sequence.isEmpty then
      some (stop_with_same_sequence.foldl
        (fun issue st => issue.push_related_object st.stop)
        (Issue.new_with_obj .Error .DuplicateStopSequence trip))
    else none

/-- `check_times_increase` from src/validators/stop_times.rs. -/
def check_times_increase (g : Gtfs) : List Issue :=
  g.trips.flatMap fun trip =>
    trip.stop_times.filterMap fun st =>
      match st.arrival_time, st.departure_time with
      | some arrival, some departure =>
          if arrival > departure then
            some ((Issue.new_with_obj .Warning .NegativeStopDuration trip).withDetails
              ("Departure time before arrival time at stop sequence " ++
                toString st.stop_sequence))
          else none
      | _, _ => none

/-- `validate` from src/validators/stop_times.rs. -/
def validate (g : Gtfs) : List Issue :=
  check_location_type g ++ check_valid_stop_sequence g ++ check_times_increase g

end stop_times

namespace interpolated_stoptimes

/-- `impossible_to_interpolate_st` from
src/validators/interpolated_stoptimes.rs. -/
def impossible_to_interpolate_st (trip : Trip) : Option Issue :=
  match trip.stop_times.head?, trip.stop_times.getLast? with
  | some first_st, some last_st =>
      if first_st.departure_time = none ∨ first_st.arrival_time = none ∨
          last_st.departure_time = none ∨ last_st.arrival_time = none then
        some ((Issue.new_with_obj .Warning .ImpossibleToInterpolateStopTimes trip).withDetails
          "The first and last stop time of a trip cannot have empty departure/arrivals as they cannot be interpolated")
      else none
  | _, _ => none

/-- `validate` from src/validators/interpolated_stoptimes.rs. -/
def validate (g : Gtfs) : List Issue :=
  g.trips.filterMap impossible_to_interpolate_st

end interpolated_stoptimes

namespace unusable_trip

/-- The loop of `validate` from src/validators/unusable_trip.rs: insert each
stop-time's stop id into the set, stopping as soon as the set holds more
than one element. -/
def collect_stops : List StopTime → List String → List String
  | [], stops => stops
  | st :: rest, stops =>
      let stops := insertSet stops st.stop.id
      if stops.length > 1 then stops else collect_stops rest stops

/-- `mk_issue` from src/validators/unusable_trip.rs. -/
def mk_issue (trip : Trip) : Issue :=
  Issue.new_with_obj .Warning .UnusableTrip trip

/-- `validate` from src/validators/unusable_trip.rs. -/
def validate (g : Gtfs) : List Issue :=
  g.trips.filterMap fun trip =>
    if (collect_stops trip.stop_times []).length < 2 then some (mk_issue trip) else none

end unusable_trip

namespace duration_distance

/-- `distance_and_duration` from src/validators/duration_distance.rs: all of
the two times and both stops' coordinates must be present; the distance is
the haversine distance between the stops and the duration is
`arrival_next − departure_prev` in seconds. -/
def distance_and_duration (ext : Externals) (departure arrival : StopTime) :
    Option (ℚ × ℚ) :=
  match arrival.arrival_time, departure.departure_time, departure.stop.longitude,
      departure.stop.latitude, arrival.stop.longitude, arrival.stop.latitude with
  | some arr, some dep, some d_lon, some d_lat, some a_lon, some a_lat =>
      some (ext.haversine d_lon d_lat a_lon a_lat, (arr : ℚ) - (dep : ℚ))
  | _, _, _, _, _, _ => none

/-- The `{:.2} km/h ({:.0} m travelled in {:.0} seconds)` details text of the
`ExcessiveSpeed` and `Slow` branches (numeric rendering abstracted by
`toString`). -/
def speed_details (distance duration : ℚ) : String :=
  "computed speed between the stops is " ++ toString (distance / duration * (36 / 10)) ++
  " km/h (" ++ toString distance ++ " m travelled in " ++ toString duration ++ " seconds)"

/-- The `issue_kind` chain of `validate_speeds` from
src/validators/duration_distance.rs, with the two divisions
`distance / duration` carrying IEEE semantics through `fdiv`. -/
def issue_kind (distance duration ms : ℚ) : Option (Severity × IssueType × String) :=
  if distance < 10 then
    some (.Information, .CloseStops,
      "distance between the stops is " ++ toString distance ++ " meter(s)")
  else if duration = 0 ∧ distance > 500 then
    some (.Warning, .NullDuration,
      "travel duration is null, but there are " ++ toString distance ++
      " meters between the stops")
  else if duration > 0 ∧ (fdiv distance duration).gtc ms then
    some (.Information, .ExcessiveSpeed, speed_details distance duration)
  else if duration < 0 then
    some (.Warning, .NegativeTravelTime, "duration is " ++ toString duration ++ " seconds")
  else if (fdiv distance duration).ltc (1 / 10) then
    some (.Information, .Slow, speed_details distance duration)
  else none

/-- The issue grouping key of `validate_speeds`: the unordered stop pair
(ids in increasing order) together with issue type and severity. -/
structure SpeedKey where
  a : String
  b : String
  itype : IssueType
  sev : Severity
  deriving DecidableEq, Repr

/-- Key construction in `validate_speeds`: order the two stop ids. -/
def speed_key (dep arr : Stop) (itype : IssueType) (sev : Severity) : SpeedKey :=
  if dep.id < arr.id then ⟨dep.id, arr.id, itype, sev⟩ else ⟨arr.id, dep.id, itype, sev⟩

/-- The issue created on a key's first occurrence: the departure stop as
subject, the arrival stop as related object, and the details. -/
def base_issue (sev : Severity) (itype : IssueType) (dep arr : Stop) (details : String) :
    Issue :=
  ((Issue.new_with_obj sev itype dep).add_related_object arr).withDetails details

/-- The route-deduplicating append at the end of the `validate_speeds` loop:
push the route unless a related object with that id and `Route` type is
already present. -/
def route_append (issue : Issue) (route : Route) : Issue :=
  if issue.related_objects.any
      (fun i => i.id == route.id && i.object_type == some ObjectType.Route) then issue
  else issue.push_related_object route

/-- One stop-time pair of the `validate_speeds` loop. -/
def process_pair (ext : Externals) (cr : CustomRules) (route : Route)
    (m : List (SpeedKey × Issue)) (p : StopTime × StopTime) : List (SpeedKey × Issue) :=
  match distance_and_duration ext p.1 p.2 with
  | none => m
  | some (distance, duration) =>
      match issue_kind distance duration (max_speed route.route_type cr) with
      | none => m
      | some (sev, itype, details) =>
          entryUpdate m (speed_key p.1.stop p.2.stop itype sev)
            (base_issue sev itype p.1.stop p.2.stop details)
            (fun issue => route_append issue route)

/-- One trip of the `validate_speeds` loop (its consecutive stop-time
pairs). -/
def process_trip (ext : Externals) (cr : CustomRules) (route : Route)
    (m : List (SpeedKey × Issue)) (stop_times : List StopTime) : List (SpeedKey × Issue) :=
  (windows2 stop_times).foldl (process_pair ext cr route) m

/-- The trip loop of `validate_speeds`, propagating a failed route lookup as
the `?` operator does. -/
def speed_map : Externals → CustomRules → Gtfs → List Trip → List (SpeedKey × Issue) →
    Except GError (List (SpeedKey × Issue))
  | _, _, _, [], m => .ok m
  | ext, cr, g, trip :: rest, m =>
      match g.get_route trip.route_id with
      | .error e => .error e
      | .ok route => speed_map ext cr g rest (process_trip ext cr route m trip.stop_times)

/-- `validate_speeds` from src/validators/duration_distance.rs. -/
def validate_speeds (ext : Externals) (g : Gtfs) (cr : CustomRules) :
    Except GError (List Issue) :=
  (speed_map ext cr g g.trips []).map (List.map Prod.snd)

/-- `validate` from src/validators/duration_distance.rs. -/
def validate (ext : Externals) (g : Gtfs) (cr : CustomRules) : List Issue :=
  match validate_speeds ext g cr with
  | .ok issues => issues
  | .error e => [Issue.new .Fatal .InvalidReference e.display]

end duration_distance

/-! ### Visualization enricher (src/visualization.rs) -/

namespace visualization

/-- `get_stop_geom` from src/visualization.rs. -/
def get_stop_geom (stop : Stop) : Option Geometry :=
  match stop.longitude, stop.latitude with
  | some lon, some lat => some (.point [lon, lat])
  | _, _ => none

/-- `geojson_feature_point` from src/visualization.rs. -/
def geojson_feature_point (stop_id : String) (g : Gtfs) : Option Feature :=
  (g.stops.find? (fun s => s.id == stop_id)).map fun stop =>
    { geometry := get_stop_geom stop,
      properties := some [("id", stop.id), ("name", stop.name)] }

/-- `get_related_stop_ids` from src/visualization.rs. -/
def get_related_stop_ids (issue : Issue) : List String :=
  (issue.related_objects.filter fun o => o.object_type = some ObjectType.Stop).map
    RelatedObject.id

/-- `line_geometry_between_stops` from src/visualization.rs. Note that the
source's proximity guard tests the longitude difference twice; the latitude
difference is never inspected. -/
def line_geometry_between_stops (stop1 stop2 : Stop) : Option Geometry :=
  match stop1.longitude, stop1.latitude, stop2.longitude, stop2.latitude with
  | some lon1, some lat1, some lon2, some lat2 =>
      if |lon1 - lon2| < 1 / 10000000 ∧ |lon1 - lon2| < 1 / 10000000 then none
      else some (.lineString [[lon1, lat1], [lon2, lat2]])
  | _, _, _, _ => none

/-- `geojson_feature_line_string` from src/visualization.rs. -/
def geojson_feature_line_string (stop1_id stop2_id : String) (g : Gtfs) (issue : Issue) :
    Option Feature :=
  match g.stops.find? (fun s => s.id == stop1_id), g.stops.find? (fun s => s.id == stop2_id) with
  | some stop1, some stop2 =>
      some { geometry := line_geometry_between_stops stop1 stop2,
             properties := issue.details.map fun details => [("details", details)] }
  | _, _ => none

/-- `generate_issue_visualization` from src/visualization.rs. -/
def generate_issue_visualization (issue : Issue) (g : Gtfs) : Option FeatureCollection :=
  match issue.object_type with
  | some .Stop =>
      let stop_id := issue.object_id
      let related_stop_ids := get_related_stop_ids issue
      let stop_features :=
        ([stop_id] ++ related_stop_ids).filterMap (geojson_feature_point · g)
      let line_string_features :=
        related_stop_ids.filterMap fun related_stop =>
          geojson_feature_line_string stop_id related_stop g issue
      some { features := stop_features ++ line_string_features }
  | _ => none

end visualization

/-- `Issue::push_related_geojson` from src/issues.rs. -/
def Issue.push_related_geojson (i : Issue) (g : Gtfs) : Issue :=
  { i with geojson := visualization.generate_issue_visualization i g }

/-! ### Orchestrator (src/validate.rs) -/

namespace validate

/-- `create_unloadable_model_error` from src/validate.rs. -/
def create_unloadable_model_error (error : GError) : Issue :=
  let msg := match error.sourceMsg with
    | some inner => error.display ++ ": " ++ inner
    | none => error.display
  let issue := (Issue.new .Fatal .UnloadableModel
    "A fatal error has occured while loading the model, many rules have not been checked").withDetails
    msg
  match error with
  | .CSVError file_name position_line line_in_error _ =>
      let line : Option RelatedLine := position_line.bind fun p =>
        line_in_error.map fun l =>
          { line_number := p, headers := l.headers, values := l.values }
      { issue with related_file := some { file_name := file_name, line := line } }
  | _ => issue

/-- The `Metadata` of src/metadatas.rs, restricted to the field the claims
mention (`issues_count`; the statistics fields do not interact with the
issue pipeline and are not modelled). -/
structure Metadata where
  issues_count : List (IssueType × Nat)
  deriving Repr

/-- `Response` from src/validate.rs (the `BTreeMap` as an association list;
the claims do not depend on its key iteration order). -/
structure Response where
  metadata : Option Metadata
  validations : List (IssueType × List Issue)
  deriving Repr

/-- The raw-level rule chain of `validate_and_metadata` from
src/validate.rs. -/
def raw_issue_list (rg : RawGtfs) : List Issue :=
  raw_gtfs.validate rg ++ invalid_reference.validate rg ++
  file_presence.validate rg ++ sub_folder.validate rg

/-- The linked-level rule chain of `validate_and_metadata` from
src/validate.rs. -/
def linked_issue_list (ext : Externals) (g : Gtfs) (cr : CustomRules) : List Issue :=
  unused_stop.validate g ++ duration_distance.validate ext g cr ++
  check_name.validate g ++ check_id.validate g ++ stops.validate g ++
  route_type.validate g ++ shapes.validate g ++ agency.validate ext g ++
  calendar.validate g ++ duplicate_stops.validate ext g ++
  fare_attributes.validate ext g ++ feed_info.validate ext g ++
  stop_times.validate g ++ interpolated_stoptimes.validate g ++
  unusable_trip.validate g

/-- The complete issue list `validate_and_metadata` aggregates: the raw
rules, then — when `Gtfs::try_from` (passed as `tryFrom`) succeeds — the
linked rules and the in-place GeoJSON enrichment of every issue, or else the
single `UnloadableModel` issue. -/
def all_issues (ext : Externals) (tryFrom : RawGtfs → Except GError Gtfs)
    (rg : RawGtfs) (cr : CustomRules) : List Issue :=
  let issues := raw_issue_list rg
  match tryFrom rg with
  | .ok g => (issues ++ linked_issue_list ext g cr).map (Issue.push_related_geojson · g)
  | .error e => issues ++ [create_unloadable_model_error e]

/-- The `validations.entry(issue.issue_type).or_insert_with(Vec::new)
.push(issue)` fold of `validate_and_metadata`. -/
def aggregate (issues : List Issue) : List (IssueType × List Issue) :=
  issues.foldl (fun m i => entryUpdate m i.issue_type [] (· ++ [i])) []

/-- `validate_and_metadata` from src/validate.rs: aggregate all issues by
type, record each bucket's size in `metadata.issues_count`, then truncate
each bucket to `max_issues`. -/
def validate_and_metadata (ext : Externals) (tryFrom : RawGtfs → Except GError Gtfs)
    (rg : RawGtfs) (max_issues : Nat) (cr : CustomRules) : Response :=
  let validations := aggregate (all_issues ext tryFrom rg cr)
  { metadata := some { issues_count := validations.map fun p => (p.1, p.2.length) },
    validations := validations.map fun p => (p.1, p.2.take max_issues) }

/-- `process` from src/validate.rs. -/
def process (ext : Externals) (tryFrom : RawGtfs → Except GError Gtfs)
    (raw_gtfs : Except GError RawGtfs) (max_issues : Nat) (cr : CustomRules) : Response :=
  match raw_gtfs with
  | .ok rg => validate_and_metadata ext tryFrom rg max_issues cr
  | .error e =>
      { metadata := none,
        validations := [(.InvalidArchive,
          [(Issue.new .Fatal .InvalidArchive "").withDetails e.display])] }

end validate

/-! ### Claim-side definitions

Definitions in this section are not translations of the source: they follow
the wording of the specification (for comparison against the embedded code)
or package inputs used by witnesses and counterexamples. -/

/-- The (severity, issue type) classification of a stop-time pair, with the
details text projected away; used to state the speed-chain claims. -/
def issue_class (distance duration ms : ℚ) : Option (Severity × IssueType) :=
  (duration_distance.issue_kind distance duration ms).map fun x => (x.1, x.2.1)

/-- Modelled from the spec: the default maximum speed table in km/h
(§3 of the spec), with extended route types using the `other` default. -/
def spec_default_kmh : RouteType → ℚ
  | .Tramway => 100
  | .Subway => 140
  | .Rail => 320
  | .Bus => 120
  | .Ferry => 90
  | .CableCar => 30
  | .Gondola => 45
  | .Funicular => 40
  | .Coach => 120
  | .Air => 1000
  | .Taxi => 50
  | .Other _ => 120

/-- Modelled from the spec: the `max_<mode>_speed` override a `CustomRules`
value supplies for a route type, extended route types using `other`. -/
def spec_override_kmh : RouteType → CustomRules → Option ℚ
  | .Tramway, cr => cr.max_tramway_speed
  | .Subway, cr => cr.max_subway_speed
  | .Rail, cr => cr.max_rail_speed
  | .Bus, cr => cr.max_bus_speed
  | .Ferry, cr => cr.max_ferry_speed
  | .CableCar, cr => cr.max_cable_car_speed
  | .Gondola, cr => cr.max_gondola_speed
  | .Funicular, cr => cr.max_funicular_speed
  | .Coach, cr => cr.max_coach_speed
  | .Air, cr => cr.max_air_speed
  | .Taxi, cr => cr.max_taxi_speed
  | .Other _, cr => cr.max_other_speed

/-- Modelled from the spec: a stop whose longitude is outside [−180, 180] or
whose latitude is outside [−90, 90] (a missing coordinate is not "outside"
a range). -/
def spec_out_of_range (s : Stop) : Prop :=
  (∃ lon, s.longitude = some lon ∧ (lon < -180 ∨ 180 < lon)) ∨
  (∃ lat, s.latitude = some lat ∧ (lat < -90 ∨ 90 < lat))

/-- Modelled from the spec: the visualization enricher skips the line
exactly when the two stops' coordinates coincide within 1e−7 degrees in
both latitude and longitude. -/
def spec_line_skip (s1 s2 : Stop) : Prop :=
  ∃ lon1 lat1 lon2 lat2, s1.longitude = some lon1 ∧ s1.latitude = some lat1 ∧
    s2.longitude = some lon2 ∧ s2.latitude = some lat2 ∧
    |lon1 - lon2| < 1 / 10000000 ∧ |lat1 - lat2| < 1 / 10000000

/-- Modelled from the spec: fewer than 2 distinct stops are referenced by a
list of stop-times (all referenced stop ids coincide). -/
def spec_few_stops (stop_times : List StopTime) : Prop :=
  ∀ a ∈ stop_times.map (fun st => st.stop.id), ∀ b ∈ stop_times.map (fun st => st.stop.id),
    a = b

/-- The property claim C6 asserts of a single issue: a Fatal severity only
occurs with one of the four fatal issue types. -/
def fatal_type_ok (i : Issue) : Prop :=
  i.severity = .Fatal →
    i.issue_type = .InvalidArchive ∨ i.issue_type = .UnloadableModel ∨
    i.issue_type = .MissingMandatoryFile ∨ i.issue_type = .InvalidReference

/-- The per-issue invariant used to settle C6 and C7 over the pipeline:
the fatal-severity restriction, and that the pipeline of src/validate.rs
never produces a `MissingAgencyId` issue. -/
def pipeline_issue_ok (i : Issue) : Prop :=
  fatal_type_ok i ∧ i.issue_type ≠ .MissingAgencyId

namespace duration_distance

/-- One classified occurrence of the speed rule: a consecutive stop-time
pair that produced an issue kind, together with the trip's route. -/
structure SpeedOcc where
  dep : Stop
  arr : Stop
  sev : Severity
  itype : IssueType
  details : String
  route : Route
  deriving Repr

/-- The grouping key of an occurrence. -/
def occ_key (o : SpeedOcc) : SpeedKey := speed_key o.dep o.arr o.itype o.sev

/-- The issue an occurrence creates when its key is new. -/
def occ_base (o : SpeedOcc) : Issue := base_issue o.sev o.itype o.dep o.arr o.details

/-- Folding one occurrence into the keyed map (the body of the
`validate_speeds` loop, occurrence-level view). -/
def apply_occ (m : List (SpeedKey × Issue)) (o : SpeedOcc) : List (SpeedKey × Issue) :=
  entryUpdate m (occ_key o) (occ_base o) (fun issue => route_append issue o.route)

/-- The occurrence a stop-time pair produces, if any. -/
def pair_occ (ext : Externals) (cr : CustomRules) (route : Route)
    (p : StopTime × StopTime) : Option SpeedOcc :=
  (distance_and_duration ext p.1 p.2).bind fun dd =>
    (issue_kind dd.1 dd.2 (max_speed route.route_type cr)).map fun k =>
      ⟨p.1.stop, p.2.stop, k.1, k.2.1, k.2.2, route⟩

/-- All occurrences of one trip, in stop-time order. -/
def trip_occs (ext : Externals) (cr : CustomRules) (route : Route)
    (stop_times : List StopTime) : List SpeedOcc :=
  (windows2 stop_times).filterMap (pair_occ ext cr route)

/-- All occurrences of the feed in trip order (`none` when some trip's route
lookup fails, mirroring the `?` propagation of `validate_speeds`). -/
def gtfs_occs (ext : Externals) (cr : CustomRules) (g : Gtfs) :
    List Trip → Option (List SpeedOcc)
  | [] => some []
  | trip :: rest =>
      match g.get_route trip.route_id with
      | .error _ => none
      | .ok route =>
          (gtfs_occs ext cr g rest).map (trip_occs ext cr route trip.stop_times ++ ·)

end duration_distance

/-! Concrete inputs for witnesses and counterexamples. -/

/-- External hooks for concrete runs: URLs parse with scheme `https`,
timezones / currencies / languages accepted, haversine constantly zero. -/
def ext0 : Externals :=
  { urlScheme := fun _ => some "https", tzOk := fun _ => true,
    iso4217 := fun _ => true, lang1 := fun _ => true, lang3 := fun _ => true,
    langLocale := fun _ => true, haversine := fun _ _ _ _ => 0 }

/-- A raw feed whose five mandatory files are present and all tables are
readable and empty. -/
def rg0 : RawGtfs :=
  { files := ["agency.txt", "routes.txt", "stops.txt", "stop_times.txt", "trips.txt"],
    stops := .ok [], routes := .ok [], trips := .ok [], agencies := .ok [],
    stop_times := .ok [], calendar := none, calendar_dates := none,
    shapes := none, pathways := none, fare_attributes := none }

/-- The CSV row failure used by the C2 witness. -/
def csvErr0 : GError :=
  .CSVError "stops.txt" (some 13)
    (some { headers := ["stop_id", "stop_lat"], values := ["s", "bad"] })
    "CSV deserialize error: record 12"

/-- A stop with no coordinates (C8's counterexample subject). -/
def stopNoCoord : Stop :=
  { id := "s1", name := "No coord", location_type := .StopPoint,
    parent_station := none, longitude := none, latitude := none }

/-- A linked model containing only `stopNoCoord`. -/
def g8 : Gtfs :=
  { stops := [stopNoCoord], routes := [], trips := [], agencies := [],
    shapes := [], fare_attributes := [], feed_info := [], calendar := [],
    calendar_dates := [] }

/-- Two stops sharing their longitude but a degree of latitude apart
(C9's failing input). -/
def stopLatA : Stop :=
  { id := "la", name := "A", location_type := .StopPoint, parent_station := none,
    longitude := some 2, latitude := some 48 }

def stopLatB : Stop :=
  { id := "lb", name := "B", location_type := .StopPoint, parent_station := none,
    longitude := some 2, latitude := some 49 }

/-- The sole stop-time of C3's trip. -/
def stAB1 : StopTime :=
  { arrival_time := some 10, departure_time := some 10, stop := stopLatA,
    stop_sequence := 1 }

/-- The single-stop-time trip `AB1` of C3's scenario. -/
def tripAB1 : Trip :=
  { id := "AB1", route_id := "r1", service_id := "sv", shape_id := none,
    stop_times := [stAB1] }

/-- The route of `tripAB1`. -/
def routeR1 : Route :=
  { id := "r1", short_name := some "R", long_name := some "Route 1",
    route_type := .Bus, agency_id := some "a1" }

/-- A linked model containing only `tripAB1` (and its route, so the speed
rule's route lookup succeeds). -/
def g3 : Gtfs :=
  { stops := [stopLatA], routes := [routeR1],
    trips := [tripAB1], agencies := [], shapes := [], fare_attributes := [],
    feed_info := [], calendar := [{ id := "sv" }], calendar_dates := [] }

/-- Two agencies for C7's counterexample. -/
def agA : Agency := { id := some "a1", name := "Agency 1", url := "https://a1", timezone := "UTC" }

def agB : Agency := { id := some "a2", name := "Agency 2", url := "https://a2", timezone := "UTC" }

/-- A route with no agency id (C7's counterexample subject). -/
def routeNoAgency : Route :=
  { id := "r1", short_name := some "R", long_name := some "Route 1",
    route_type := .Bus, agency_id := none }

/-- A linked model with two agencies and a route lacking its agency id. -/
def g7 : Gtfs :=
  { stops := [], routes := [routeNoAgency], trips := [], agencies := [agA, agB],
    shapes := [], fare_attributes := [], feed_info := [],
    calendar := [{ id := "sv" }], calendar_dates := [] }

/-- Stops and trip for the C5 witness: two stops with coordinates, a trip
visiting both with set times; with `ext0`'s zero haversine the pair
classifies as `CloseStops`. -/
def stopA5 : Stop :=
  { id := "sa", name := "SA", location_type := .StopPoint, parent_station := none,
    longitude := some 1, latitude := some 1 }

def stopB5 : Stop :=
  { id := "sb", name := "SB", location_type := .StopPoint, parent_station := none,
    longitude := some 1, latitude := some 2 }

def trip5 : Trip :=
  { id := "t5", route_id := "r5", service_id := "sv", shape_id := none,
    stop_times :=
      [{ arrival_time := some 40, departure_time := some 50, stop := stopA5,
         stop_sequence := 1 },
       { arrival_time := some 100, departure_time := some 110, stop := stopB5,
         stop_sequence := 2 }] }

def route5 : Route :=
  { id := "r5", short_name := some "R5", long_name := some "Route 5",
    route_type := .Bus, agency_id := none }

/-- A linked model exercising the speed rule for the C5 witness. -/
def g5 : Gtfs :=
  { stops := [stopA5, stopB5], routes := [route5], trips := [trip5],
    agencies := [], shapes := [], fare_attributes := [], feed_info := [],
    calendar := [{ id := "sv" }], calendar_dates := [] }

/-- A raw feed matching `g7`. -/
def rg7 : RawGtfs :=
  { files := ["agency.txt", "routes.txt", "stops.txt", "stop_times.txt", "trips.txt"],
    stops := .ok [], routes := .ok [routeNoAgency], trips := .ok [],
    agencies := .ok [agA, agB], stop_times := .ok [],
    calendar := none, calendar_dates := none, shapes := none, pathways := none,
    fare_attributes := none }

/-! ### Helper lemmas about the association-list operations -/

theorem lookupA_entryUpdate_self [DecidableEq κ] (m : List (κ × ν)) (k : κ) (dflt : ν)
    (f : ν → ν) :
    lookupA (entryUpdate m k dflt f) k = some (f ((lookupA m k).getD dflt)) := by
  induction m with
  | nil => simp [entryUpdate, lookupA]
  | cons kv rest ih =>
      obtain ⟨k', v⟩ := kv
      by_cases h : k' = k
      · subst h; simp [entryUpdate, lookupA]
      · simp [entryUpdate, lookupA, h, ih]

theorem lookupA_entryUpdate_ne [DecidableEq κ] (m : List (κ × ν)) (k : κ) (dflt : ν)
    (f : ν → ν) (k' : κ) (h : k' ≠ k) :
    lookupA (entryUpdate m k dflt f) k' = lookupA m k' := by
  have hne : ¬ (k = k') := fun hh => h hh.symm
  induction m with
  | nil => simp [entryUpdate, lookupA, hne]
  | cons kv rest ih =>
      obtain ⟨k'', v⟩ := kv
      by_cases hk : k'' = k
      · subst hk
        simp [entryUpdate, lookupA, hne]
      · by_cases hk' : k'' = k' <;> simp [entryUpdate, lookupA, hk, hk', h, ih]

/-- Folding a list into a keyed map by `entryUpdate`, looked up at a key
that is already bound: the updates of the matching elements compose onto
the existing value. -/
theorem lookupA_foldl_entryUpdate_some [DecidableEq κ]
    (key : α → κ) (dflt : α → ν) (f : α → ν → ν) (l : List α) (m : List (κ × ν))
    (k : κ) (v : ν) (h : lookupA m k = some v) :
    lookupA (l.foldl (fun m a => entryUpdate m (key a) (dflt a) (f a)) m) k =
      some ((l.filter fun a => key a = k).foldl (fun v a => f a v) v) := by
  induction l generalizing m v with
  | nil => simpa using h
  | cons a l ih =>
      by_cases hk : key a = k
      · have h' : lookupA (entryUpdate m (key a) (dflt a) (f a)) k = some (f a v) := by
          rw [hk, lookupA_entryUpdate_self, h]; rfl
        simpa [hk] using ih _ _ h'
      · have h' : lookupA (entryUpdate m (key a) (dflt a) (f a)) k = some v := by
          rw [lookupA_entryUpdate_ne _ _ _ _ _ (fun hh => hk hh.symm)]; exact h
        simpa [hk] using ih _ _ h'

/-- Folding a list into a keyed map by `entryUpdate`, looked up at an unbound
key: the first matching element creates the entry from its default and every
matching element (the first included) applies its update. -/
theorem lookupA_foldl_entryUpdate_none [DecidableEq κ]
    (key : α → κ) (dflt : α → ν) (f : α → ν → ν) (l : List α) (m : List (κ × ν))
    (k : κ) (h : lookupA m k = none) :
    lookupA (l.foldl (fun m a => entryUpdate m (key a) (dflt a) (f a)) m) k =
      match l.filter fun a => key a = k with
      | [] => none
      | a :: fs => some ((a :: fs).foldl (fun v a => f a v) (dflt a)) := by
  induction l generalizing m with
  | nil => simpa using h
  | cons a l ih =>
      by_cases hk : key a = k
      · have h' : lookupA (entryUpdate m (key a) (dflt a) (f a)) k = some (f a (dflt a)) := by
          rw [hk, lookupA_entryUpdate_self, h]; rfl
        have := lookupA_foldl_entryUpdate_some key dflt f l _ k _ h'
        simpa [hk] using this
      · have h' : lookupA (entryUpdate m (key a) (dflt a) (f a)) k = none := by
          rw [lookupA_entryUpdate_ne _ _ _ _ _ (fun hh => hk hh.symm)]; exact h
        simpa [hk] using ih _ h'

/-- `lookupA` through a per-value map. -/
theorem lookupA_map_snd [DecidableEq κ] (m : List (κ × ν)) (g : ν → μ) (k : κ) :
    lookupA (m.map fun p => (p.1, g p.2)) k = (lookupA m k).map g := by
  induction m with
  | nil => simp [lookupA]
  | cons kv rest ih =>
      obtain ⟨k', v⟩ := kv
      by_cases h : k' = k <;> simp [lookupA, h, ih]

/-- Every value in `entryUpdate m k dflt f` satisfies `P` provided the
values of `m` do, `f dflt` does, and `f` preserves `P`. -/
theorem entryUpdate_values [DecidableEq κ] (P : ν → Prop) (m : List (κ × ν)) (k : κ)
    (dflt : ν) (f : ν → ν) (hm : ∀ kv ∈ m, P kv.2) (hd : P (f dflt))
    (hf : ∀ v, P v → P (f v)) :
    ∀ kv ∈ entryUpdate m k dflt f, P kv.2 := by
  induction m with
  | nil =>
      intro x hx
      simp only [entryUpdate, List.mem_singleton] at hx
      subst hx; exact hd
  | cons kv rest ih =>
      obtain ⟨k', v⟩ := kv
      intro x hx
      simp only [entryUpdate] at hx
      by_cases h : k' = k
      · rw [if_pos h] at hx
        rcases List.mem_cons.mp hx with h' | h'
        · subst h'; exact hf v (hm (k', v) (List.mem_cons_self _ _))
        · exact hm x (List.mem_cons_of_mem _ h')
      · rw [if_neg h] at hx
        rcases List.mem_cons.mp hx with h' | h'
        · subst h'; exact hm (k', v) (List.mem_cons_self _ _)
        · exact ih (fun kv hkv => hm kv (List.mem_cons_of_mem _ hkv)) x h'

/-- `fdiv` by a nonzero denominator is the exact quotient. -/
theorem fdiv_of_ne (num den : ℚ) (h : den ≠ 0) : fdiv num den = .fin (num / den) := by
  simp [fdiv, h]

/-- `fdiv` of a positive numerator by zero is `+∞`. -/
theorem fdiv_zero_pos (num : ℚ) (h : 0 < num) : fdiv num 0 = .posInf := by
  simp [fdiv, h]

/-! ### The speed-rule classification chain -/

/-- `issue_class` unfolded to its branch chain. -/
theorem issue_class_eq (d t ms : ℚ) :
    issue_class d t ms =
      if d < 10 then some (.Information, .CloseStops)
      else if t = 0 ∧ d > 500 then some (.Warning, .NullDuration)
      else if t > 0 ∧ (fdiv d t).gtc ms then some (.Information, .ExcessiveSpeed)
      else if t < 0 then some (.Warning, .NegativeTravelTime)
      else if (fdiv d t).ltc (1 / 10) then some (.Information, .Slow)
      else none := by
  unfold issue_class duration_distance.issue_kind
  split_ifs <;> rfl

theorem issue_class_close_iff (d t ms : ℚ) :
    issue_class d t ms = some (.Information, .CloseStops) ↔ d < 10 := by
  rw [issue_class_eq]
  split_ifs with h1 h2 h3 h4 h5 <;> simp_all

theorem issue_class_null_iff (d t ms : ℚ) :
    issue_class d t ms = some (.Warning, .NullDuration) ↔ ¬ d < 10 ∧ t = 0 ∧ 500 < d := by
  rw [issue_class_eq]
  split_ifs with h1 h2 h3 h4 h5 <;> simp_all

theorem issue_class_excessive_iff (d t ms : ℚ) :
    issue_class d t ms = some (.Information, .ExcessiveSpeed) ↔
      ¬ d < 10 ∧ 0 < t ∧ ms < d / t := by
  rw [issue_class_eq]
  split_ifs with h1 h2 h3 h4 h5
  · simp_all
  · simp only [Option.some.injEq, Prod.mk.injEq]
    constructor
    · rintro ⟨h, -⟩; cases h
    · rintro ⟨-, ht, -⟩; exact absurd h2.1 (by positivity)
  · obtain ⟨ht, hgt⟩ := h3
    rw [fdiv_of_ne d t (ne_of_gt ht)] at hgt
    simp only [FDiv.gtc, decide_eq_true_eq] at hgt
    simp [h1, ht, hgt]
  · simp only [Option.some.injEq, Prod.mk.injEq]
    constructor
    · rintro ⟨h, -⟩; cases h
    · rintro ⟨-, ht, -⟩; exact absurd h4 (asymm ht)
  · simp only [Option.some.injEq, Prod.mk.injEq]
    constructor
    · rintro ⟨-, h⟩; cases h
    · rintro ⟨-, ht, hms⟩
      exact (h3 ⟨ht, by rw [fdiv_of_ne d t (ne_of_gt ht)]; simpa [FDiv.gtc] using hms⟩).elim
  · constructor
    · rintro ⟨⟩
    · rintro ⟨-, ht, hms⟩
      exact (h3 ⟨ht, by rw [fdiv_of_ne d t (ne_of_gt ht)]; simpa [FDiv.gtc] using hms⟩).elim

theorem issue_class_negative_iff (d t ms : ℚ) :
    issue_class d t ms = some (.Warning, .NegativeTravelTime) ↔ ¬ d < 10 ∧ t < 0 := by
  rw [issue_class_eq]
  split_ifs with h1 h2 h3 h4 h5
  · simp_all
  · simp only [Option.some.injEq, Prod.mk.injEq]
    constructor
    · rintro ⟨-, h⟩; cases h
    · rintro ⟨-, ht⟩; exact absurd h2.1 (ne_of_lt ht)
  · simp only [Option.some.injEq, Prod.mk.injEq]
    constructor
    · rintro ⟨h, -⟩; cases h
    · rintro ⟨-, ht⟩; exact absurd h3.1 (asymm ht)
  · simp [h1, h4]
  · simp only [Option.some.injEq, Prod.mk.injEq]
    constructor
    · rintro ⟨-, h⟩; cases h
    · rintro ⟨-, ht⟩; exact absurd ht h4
  · constructor
    · rintro ⟨⟩
    · rintro ⟨-, ht⟩; exact absurd ht h4

theorem issue_class_slow_iff (d t ms : ℚ) :
    issue_class d t ms = some (.Information, .Slow) ↔
      ¬ d < 10 ∧ 0 < t ∧ d / t ≤ ms ∧ d / t < 1 / 10 := by
  rw [issue_class_eq]
  split_ifs with h1 h2 h3 h4 h5
  · simp_all
  · simp only [Option.some.injEq, Prod.mk.injEq]
    constructor
    · rintro ⟨h, -⟩; cases h
    · rintro ⟨-, ht, -⟩; exact absurd h2.1 (by positivity)
  · simp only [Option.some.injEq, Prod.mk.injEq]
    constructor
    · rintro ⟨-, h⟩; cases h
    · rintro ⟨-, ht, hle, -⟩
      obtain ⟨-, hgt⟩ := h3
      rw [fdiv_of_ne d t (ne_of_gt ht)] at hgt
      simp only [FDiv.gtc, decide_eq_true_eq] at hgt
      exact absurd hle (not_le.mpr hgt)
  · simp only [Option.some.injEq, Prod.mk.injEq]
    constructor
    · rintro ⟨h, -⟩; cases h
    · rintro ⟨-, ht, -⟩; exact absurd h4 (asymm ht)
  · -- the guard held: the duration cannot be 0 (the division yields +∞),
    -- so it is positive and the guard is the plain comparison
    have hd0 : (0 : ℚ) < d := lt_of_lt_of_le (by norm_num) (not_lt.mp h1)
    rcases lt_trichotomy t 0 with ht | ht | ht
    · exact absurd ht h4
    · subst ht
      rw [fdiv_zero_pos d hd0] at h5
      cases h5
    · rw [fdiv_of_ne d t (ne_of_gt ht)] at h5
      simp only [FDiv.ltc, decide_eq_true_eq] at h5
      have hle : d / t ≤ ms := by
        by_contra hgt
        exact h3 ⟨ht, by rw [fdiv_of_ne d t (ne_of_gt ht)]; simpa [FDiv.gtc] using not_le.mp hgt⟩
      exact ⟨fun _ => ⟨h1, ht, hle, h5⟩, fun _ => rfl⟩
  · constructor
    · rintro ⟨⟩
    · rintro ⟨-, ht, -, hlt⟩
      rw [fdiv_of_ne d t (ne_of_gt ht)] at h5
      simp only [FDiv.ltc, decide_eq_true_eq] at h5
      exact h5 hlt

theorem issue_class_none_iff (d t ms : ℚ) :
    issue_class d t ms = none ↔
      (10 ≤ d ∧ t = 0 ∧ d ≤ 500) ∨
      (10 ≤ d ∧ 0 < t ∧ d / t ≤ ms ∧ 1 / 10 ≤ d / t) := by
  rw [issue_class_eq]
  split_ifs with h1 h2 h3 h4 h5
  · constructor
    · rintro ⟨⟩
    · rintro (⟨h, -⟩ | ⟨h, -⟩) <;> exact absurd h (not_le.mpr h1)
  · constructor
    · rintro ⟨⟩
    · rintro (⟨-, -, h⟩ | ⟨-, ht, -⟩)
      · exact absurd h2.2 (not_lt.mpr h)
      · exact absurd h2.1 (by positivity)
  · constructor
    · rintro ⟨⟩
    · rintro (⟨-, ht, -⟩ | ⟨-, ht, hle, -⟩)
      · exact absurd h3.1 (by rw [ht] at *; exact lt_irrefl 0)
      · obtain ⟨-, hgt⟩ := h3
        rw [fdiv_of_ne d t (ne_of_gt ht)] at hgt
        simp only [FDiv.gtc, decide_eq_true_eq] at hgt
        exact absurd hle (not_le.mpr hgt)
  · constructor
    · rintro ⟨⟩
    · rintro (⟨-, ht, -⟩ | ⟨-, ht, -⟩)
      · exact absurd h4 (by rw [ht] at *; exact lt_irrefl 0)
      · exact absurd h4 (asymm ht)
  · constructor
    · rintro ⟨⟩
    · rintro (⟨h10, ht, -⟩ | ⟨-, ht, -, hge⟩)
      · subst ht
        rw [fdiv_zero_pos d (lt_of_lt_of_le (by norm_num) h10)] at h5
        cases h5
      · rw [fdiv_of_ne d t (ne_of_gt ht)] at h5
        simp only [FDiv.ltc, decide_eq_true_eq] at h5
        exact absurd hge (not_le.mpr h5)
  · simp only [true_iff]
    have h10 : 10 ≤ d := not_lt.mp h1
    rcases lt_trichotomy t 0 with ht | ht | ht
    · exact absurd ht h4
    · subst ht
      have h500 : d ≤ 500 := by
        by_contra hgt
        exact h2 ⟨rfl, not_le.mp hgt⟩
      exact Or.inl ⟨h10, rfl, h500⟩
    · rw [fdiv_of_ne d t (ne_of_gt ht)] at h5
      simp only [FDiv.ltc, decide_eq_true_eq] at h5
      have hle : d / t ≤ ms := by
        by_contra hgt
        exact h3 ⟨ht, by rw [fdiv_of_ne d t (ne_of_gt ht)]; simpa [FDiv.gtc] using not_le.mp hgt⟩
      exact Or.inr ⟨h10, ht, hle, not_lt.mp h5⟩

/-- `max_speed` against the spec's table. -/
theorem max_speed_eq_spec (rt : RouteType) (cr : CustomRules) :
    max_speed rt cr = ((spec_override_kmh rt cr).getD (spec_default_kmh rt)) / (36 / 10) := by
  cases rt <;> rfl

/-! ### Claims C4 and C10 -/

/-- C4: for a consecutive stop-time pair with distance `d` and duration `t`,
the speed rule chooses at most one classification by the exact ordered chain
`CloseStops` (d < 10) → `NullDuration` (t = 0 ∧ d > 500) → `ExcessiveSpeed`
(t > 0 ∧ d/t > max_speed) → `NegativeTravelTime` (t < 0) → `Slow`
(d/t < 0.1) → nothing, with the stated severities; and `max_speed` is the
CustomRules override when set, else the default table value, read as km/h
and divided by 3.6, extended `Other` route types using the `other` default.
(The iff right-hand sides are the chain conditions with the earlier branches
negated and simplified; at `t = 0` the IEEE quotient is `+∞`, so the `Slow`
branch requires `t > 0`.) -/
theorem speed_chain_classification (d t : ℚ) (rt : RouteType) (cr : CustomRules) :
    (issue_class d t (max_speed rt cr) = some (.Information, .CloseStops) ↔ d < 10) ∧
    (issue_class d t (max_speed rt cr) = some (.Warning, .NullDuration) ↔
      ¬ d < 10 ∧ t = 0 ∧ 500 < d) ∧
    (issue_class d t (max_speed rt cr) = some (.Information, .ExcessiveSpeed) ↔
      ¬ d < 10 ∧ 0 < t ∧ max_speed rt cr < d / t) ∧
    (issue_class d t (max_speed rt cr) = some (.Warning, .NegativeTravelTime) ↔
      ¬ d < 10 ∧ t < 0) ∧
    (issue_class d t (max_speed rt cr) = some (.Information, .Slow) ↔
      ¬ d < 10 ∧ 0 < t ∧ d / t ≤ max_speed rt cr ∧ d / t < 1 / 10) ∧
    (issue_class d t (max_speed rt cr) = none ↔
      (10 ≤ d ∧ t = 0 ∧ d ≤ 500) ∨
      (10 ≤ d ∧ 0 < t ∧ d / t ≤ max_speed rt cr ∧ 1 / 10 ≤ d / t)) ∧
    max_speed rt cr = ((spec_override_kmh rt cr).getD (spec_default_kmh rt)) / (36 / 10) :=
  ⟨issue_class_close_iff d t _, issue_class_null_iff d t _,
   issue_class_excessive_iff d t _, issue_class_negative_iff d t _,
   issue_class_slow_iff d t _, issue_class_none_iff d t _, max_speed_eq_spec rt cr⟩

/-- C10: a consecutive pair with duration exactly 0 and distance within
[10 m, 500 m] produces no issue; the `Slow` branch's division by the zero
duration is reached, produces IEEE `+∞`, and `+∞ < 0.1` is false, so no
branch condition holds and evaluation is total (the classifier is a total
function returning `none`). -/
theorem speed_rule_zero_duration_no_issue (d ms : ℚ) (h10 : 10 ≤ d) (h500 : d ≤ 500) :
    duration_distance.issue_kind d 0 ms = none ∧ fdiv d 0 = .posInf ∧
      (fdiv d 0).ltc (1 / 10) = false := by
  have hd0 : (0 : ℚ) < d := lt_of_lt_of_le (by norm_num) h10
  have hinf := fdiv_zero_pos d hd0
  have hnone : issue_class d 0 ms = none :=
    (issue_class_none_iff d 0 ms).mpr (Or.inl ⟨h10, rfl, h500⟩)
  refine ⟨?_, hinf, by rw [hinf]; rfl⟩
  unfold issue_class at hnone
  exact Option.map_eq_none.mp hnone

/-- Witness for C10 at `d = 200`. -/
theorem speed_rule_zero_duration_no_issue_witness :
    (10 : ℚ) ≤ 200 ∧ (200 : ℚ) ≤ 500 ∧
      (duration_distance.issue_kind 200 0 (max_speed .Bus {}) = none ∧
        fdiv 200 0 = .posInf ∧ (fdiv 200 0).ltc (1 / 10) = false) :=
  ⟨by norm_num, by norm_num,
    speed_rule_zero_duration_no_issue 200 (max_speed .Bus {}) (by norm_num) (by norm_num)⟩

/-! ### The unusable-trip rule (claim C3) -/

theorem mem_insertSet [DecidableEq α] (s : List α) (x y : α) :
    y ∈ insertSet s x ↔ y ∈ s ∨ y = x := by
  unfold insertSet
  by_cases h : x ∈ s
  · simp only [if_pos h]
    constructor
    · exact Or.inl
    · rintro (hy | rfl) <;> [exact hy; exact h]
  · simp [if_neg h]

theorem nodup_insertSet [DecidableEq α] (s : List α) (x : α) (h : s.Nodup) :
    (insertSet s x).Nodup := by
  unfold insertSet
  by_cases hx : x ∈ s
  · simpa [if_pos hx]
  · rw [if_neg hx]
    simp [List.nodup_append, h, hx]

theorem length_le_insertSet [DecidableEq α] (s : List α) (x : α) :
    s.length ≤ (insertSet s x).length := by
  unfold insertSet
  by_cases hx : x ∈ s <;> simp [hx]

theorem length_le_foldl_insertSet [DecidableEq α] (f : β → α) (l : List β) (acc : List α) :
    acc.length ≤ (l.foldl (fun s st => insertSet s (f st)) acc).length := by
  induction l generalizing acc with
  | nil => simp
  | cons st rest ih => exact le_trans (length_le_insertSet acc (f st)) (ih _)

theorem mem_foldl_insertSet [DecidableEq α] (f : β → α) (l : List β) (acc : List α)
    (y : α) :
    y ∈ l.foldl (fun s st => insertSet s (f st)) acc ↔ y ∈ acc ∨ y ∈ l.map f := by
  induction l generalizing acc with
  | nil => simp
  | cons st rest ih =>
      simp only [List.foldl_cons, List.map_cons, List.mem_cons]
      rw [ih, mem_insertSet]
      tauto

theorem nodup_foldl_insertSet [DecidableEq α] (f : β → α) (l : List β) (acc : List α)
    (h : acc.Nodup) : (l.foldl (fun s st => insertSet s (f st)) acc).Nodup := by
  induction l generalizing acc with
  | nil => simpa
  | cons st rest ih => exact ih _ (nodup_insertSet _ _ h)

theorem nodup_length_lt_two [DecidableEq α] (l : List α) (h : l.Nodup) :
    l.length < 2 ↔ ∀ a ∈ l, ∀ b ∈ l, a = b := by
  match l with
  | [] => simp
  | [x] => simp
  | x :: y :: rest =>
      simp only [List.length_cons, Nat.lt_irrefl]
      constructor
      · omega
      · intro hall
        have : x = y := hall x (by simp) y (by simp)
        rw [List.nodup_cons] at h
        exact absurd (this ▸ List.mem_cons_self y rest) h.1

/-- The early-exit stop collection of `unusable_trip::validate` crosses the
2-element threshold exactly when the full pass would. -/
theorem collect_stops_lt_two_iff_foldl (sts : List StopTime) (acc : List String) :
    (unusable_trip.collect_stops sts acc).length < 2 ↔
      (sts.foldl (fun s st => insertSet s st.stop.id) acc).length < 2 := by
  induction sts generalizing acc with
  | nil => simp [unusable_trip.collect_stops]
  | cons st rest ih =>
      simp only [unusable_trip.collect_stops, List.foldl_cons]
      by_cases h : (insertSet acc st.stop.id).length > 1
      · rw [if_pos h]
        have hge := length_le_foldl_insertSet (fun st : StopTime => st.stop.id) rest
          (insertSet acc st.stop.id)
        constructor <;> intro hlt <;> omega
      · rw [if_neg h]
        exact ih _

/-- The guard of `unusable_trip::validate` holds exactly when the trip's
stop-times reference fewer than 2 distinct stops. -/
theorem collect_stops_lt_two_iff (sts : List StopTime) :
    (unusable_trip.collect_stops sts []).length < 2 ↔ spec_few_stops sts := by
  rw [collect_stops_lt_two_iff_foldl]
  have hnd := nodup_foldl_insertSet (fun st : StopTime => st.stop.id) sts [] List.nodup_nil
  rw [nodup_length_lt_two _ hnd]
  unfold spec_few_stops
  constructor
  · intro h a ha b hb
    exact h a ((mem_foldl_insertSet _ _ _ a).mpr (Or.inr ha)) b
      ((mem_foldl_insertSet _ _ _ b).mpr (Or.inr hb))
  · intro h a ha b hb
    rcases (mem_foldl_insertSet _ _ _ a).mp ha with h' | h'
    · cases h'
    rcases (mem_foldl_insertSet _ _ _ b).mp hb with h'' | h''
    · cases h''
    exact h a h' b h''

/-- C3 (counterexample): on the single-stop-time trip `AB1` the emitted
`UnusableTrip` issue has severity `Warning`, not `Error` as the claim
states. -/
theorem unusable_trip_error_counterexample :
    tripAB1 ∈ g3.trips ∧ spec_few_stops tripAB1.stop_times ∧
      ¬ ∃ i ∈ unusable_trip.validate g3, i.issue_type = .UnusableTrip ∧
        i.object_id = "AB1" ∧ i.severity = .Error := by
  refine ⟨by decide, ?_, ?_⟩
  · intro a ha b hb
    simp only [tripAB1, stAB1, stopLatA, List.map_cons, List.map_nil,
      List.mem_singleton] at ha hb
    rw [ha, hb]
  · decide

/-- C3 (amended): for every trip whose stop-times reference fewer than 2
distinct stops, `unusable_trip::validate` emits an `UnusableTrip` issue
naming that trip — with severity `Warning` (the source's severity; the claim
said `Error`). -/
theorem unusable_trip_emits (g : Gtfs) (trip : Trip) (htr : trip ∈ g.trips)
    (hfew : spec_few_stops trip.stop_times) :
    ∃ i ∈ unusable_trip.validate g, i.issue_type = .UnusableTrip ∧
      i.object_id = trip.id ∧ i.severity = .Warning := by
  refine ⟨unusable_trip.mk_issue trip, ?_, rfl, rfl, rfl⟩
  unfold unusable_trip.validate
  refine List.mem_filterMap.mpr ⟨trip, htr, ?_⟩
  rw [if_pos ((collect_stops_lt_two_iff trip.stop_times).mpr hfew)]

/-- Witness for the amended C3 at `g3` / `tripAB1`. -/
theorem unusable_trip_emits_witness :
    tripAB1 ∈ g3.trips ∧ spec_few_stops tripAB1.stop_times ∧
      ∃ i ∈ unusable_trip.validate g3, i.issue_type = .UnusableTrip ∧
        i.object_id = tripAB1.id ∧ i.severity = .Warning := by
  have hfew : spec_few_stops tripAB1.stop_times := by
    intro a ha b hb
    simp only [tripAB1, stAB1, stopLatA, List.map_cons, List.map_nil,
      List.mem_singleton] at ha hb
    rw [ha, hb]
  exact ⟨by decide, hfew, unusable_trip_emits g3 tripAB1 (by decide) hfew⟩

/-! ### The stop-coordinate rule (claim C8) -/

/-- `valid_coord` fails exactly on a missing coordinate or an out-of-range
one. -/
theorem not_valid_coord_iff (s : Stop) :
    ¬ stops.valid_coord s = true ↔
      s.longitude = none ∨ s.latitude = none ∨ spec_out_of_range s := by
  rcases hlon : s.longitude with _ | lon
  · simp [stops.valid_coord, hlon]
  rcases hlat : s.latitude with _ | lat
  · simp [stops.valid_coord, hlon, hlat]
  have hv : stops.valid_coord s =
      decide (-180 ≤ lon ∧ lon ≤ 180 ∧ -90 ≤ lat ∧ lat ≤ 90) := by
    unfold stops.valid_coord
    rw [hlon, hlat]
  rw [hv]
  simp only [decide_eq_true_eq, hlon, hlat, reduceCtorEq, false_or]
  constructor
  · intro h
    unfold spec_out_of_range
    by_cases h1 : lon < -180
    · exact Or.inl ⟨lon, hlon, Or.inl h1⟩
    by_cases h2 : 180 < lon
    · exact Or.inl ⟨lon, hlon, Or.inr h2⟩
    by_cases h3 : lat < -90
    · exact Or.inr ⟨lat, hlat, Or.inl h3⟩
    by_cases h4 : 90 < lat
    · exact Or.inr ⟨lat, hlat, Or.inr h4⟩
    exact absurd ⟨not_lt.mp h1, not_lt.mp h2, not_lt.mp h3, not_lt.mp h4⟩ h
  · intro hoor
    rintro ⟨ha, hb, hc, hd⟩
    unfold spec_out_of_range at hoor
    rcases hoor with ⟨lon', hlon', hout⟩ | ⟨lat', hlat', hout⟩
    · rw [hlon] at hlon'
      obtain rfl := Option.some.inj hlon'
      rcases hout with h | h
      · exact absurd ha (not_le.mpr h)
      · exact absurd hb (not_le.mpr h)
    · rw [hlat] at hlat'
      obtain rfl := Option.some.inj hlat'
      rcases hout with h | h
      · exact absurd hc (not_le.mpr h)
      · exact absurd hd (not_le.mpr h)

/-- C8 (counterexample): a stop with no coordinates at all receives an
`InvalidCoordinates` Error, although neither coordinate is outside its
range. -/
theorem invalid_coordinates_counterexample :
    (∃ i ∈ stops.validate_coord g8, i.issue_type = .InvalidCoordinates ∧
        i.object_id = "s1" ∧ i.severity = .Error) ∧
      ¬ spec_out_of_range stopNoCoord := by
  constructor
  · decide
  · rintro (⟨lon, h, -⟩ | ⟨lat, h, -⟩) <;> simp [stopNoCoord] at h

/-- C8 (amended): the stops rule emits an `InvalidCoordinates` Error exactly
for the stops that lack a longitude or latitude, or whose longitude is
outside [−180, 180] or latitude outside [−90, 90]. -/
theorem invalid_coordinates_characterization (g : Gtfs) (s : Stop) (hs : s ∈ g.stops)
    (hnd : (g.stops.map Stop.id).Nodup) :
    (∃ i ∈ stops.validate_coord g, i.issue_type = .InvalidCoordinates ∧
        i.object_id = s.id ∧ i.severity = .Error) ↔
      (s.longitude = none ∨ s.latitude = none ∨ spec_out_of_range s) := by
  rw [← not_valid_coord_iff]
  constructor
  · rintro ⟨i, hi, htype, hid, -⟩
    unfold stops.validate_coord at hi
    rcases List.mem_append.mp hi with hmem | hmem
    · obtain ⟨s', -, heq⟩ := List.mem_filterMap.mp hmem
      unfold stops.check_coord at heq
      split_ifs at heq
      cases heq.symm
      cases htype
    · obtain ⟨s', hs', heq⟩ := List.mem_map.mp hmem
      have hids : s'.id = s.id := by
        cases heq; exact hid
      have hmem' := List.mem_of_mem_filter hs'
      have : s' = s := List.inj_on_of_nodup_map hnd hmem' hs hids
      subst this
      have := List.of_mem_filter hs'
      simpa using this
  · intro h
    refine ⟨stops.make_invalid_coord_issue s, ?_, rfl, rfl, rfl⟩
    unfold stops.validate_coord
    refine List.mem_append.mpr (Or.inr (List.mem_map.mpr ⟨s, ?_, rfl⟩))
    exact List.mem_filter.mpr ⟨hs, by simpa using h⟩

/-- Witness for the amended C8 at `g8` / `stopNoCoord`. -/
theorem invalid_coordinates_characterization_witness :
    stopNoCoord ∈ g8.stops ∧ (g8.stops.map Stop.id).Nodup ∧
      ((∃ i ∈ stops.validate_coord g8, i.issue_type = .InvalidCoordinates ∧
          i.object_id = stopNoCoord.id ∧ i.severity = .Error) ↔
        (stopNoCoord.longitude = none ∨ stopNoCoord.latitude = none ∨
          spec_out_of_range stopNoCoord)) :=
  ⟨by decide, by decide,
    invalid_coordinates_characterization g8 stopNoCoord (by decide) (by decide)⟩

/-! ### The visualization line-skip guard (claim C9) -/

/-- C9 (code bug): the skip guard of `line_geometry_between_stops` compares
the longitude difference twice and never inspects the latitudes, so two
stops sharing a longitude but a full degree of latitude apart get no
`LineString`, though the spec skips the line only when both coordinates
coincide within 1e−7°. -/
theorem line_skip_ignores_latitude :
    visualization.line_geometry_between_stops stopLatA stopLatB = none ∧
      ¬ spec_line_skip stopLatA stopLatB ∧
      stopLatA.longitude = stopLatB.longitude ∧
      stopLatA.latitude = some 48 ∧ stopLatB.latitude = some 49 := by
  have hnone : visualization.line_geometry_between_stops stopLatA stopLatB = none := by
    show (if |(2 : ℚ) - 2| < 1 / 10000000 ∧ |(2 : ℚ) - 2| < 1 / 10000000 then none
      else some (Geometry.lineString [[(2 : ℚ), 48], [(2 : ℚ), 49]])) = none
    rw [if_pos (by norm_num)]
  refine ⟨hnone, ?_, rfl, rfl, rfl⟩
  rintro ⟨lon1, lat1, lon2, lat2, h1, h2, h3, h4, -, hlat⟩
  simp only [stopLatA, stopLatB, Option.some.injEq] at h1 h2 h3 h4
  subst h1; subst h2; subst h3; subst h4
  norm_num at hlat

/-! ### Aggregation and truncation (claim C1) -/

theorem foldl_push (l acc : List α) :
    l.foldl (fun s x => s ++ [x]) acc = acc ++ l := by
  induction l generalizing acc with
  | nil => simp
  | cons x rest ih => simp [ih]

/-- The issue-type bucket of `aggregate` is exactly the sublist of issues of
that type, in order. -/
theorem lookupA_aggregate (issues : List Issue) (t : IssueType) :
    lookupA (validate.aggregate issues) t =
      match issues.filter (fun i => i.issue_type = t) with
      | [] => none
      | a :: fs => some (a :: fs) := by
  unfold validate.aggregate
  rw [lookupA_foldl_entryUpdate_none (fun i : Issue => i.issue_type)
    (fun _ => []) (fun i l => l ++ [i]) issues [] t rfl]
  cases hf : issues.filter (fun i => i.issue_type = t) with
  | nil => rfl
  | cons a fs => simp [foldl_push]

/-- The bucket of a type with at least one issue. -/
theorem lookupA_aggregate_of_ne (issues : List Issue) (t : IssueType)
    (h : issues.filter (fun i => i.issue_type = t) ≠ []) :
    lookupA (validate.aggregate issues) t =
      some (issues.filter (fun i => i.issue_type = t)) := by
  rw [lookupA_aggregate]
  rcases hf : issues.filter (fun i => i.issue_type = t) with _ | ⟨a, fs⟩
  · exact absurd hf h
  · rw [hf]

/-- C1: in every `Response` of `validate_and_metadata`, each present bucket's
`issues_count` entry equals the number of issues of that type collected
before truncation; the bucket holds at most `max_issues` issues, never more
than the count, and exactly the count when no truncation occurred. -/
theorem response_issues_count (ext : Externals) (tryFrom : RawGtfs → Except GError Gtfs)
    (rg : RawGtfs) (max_issues : Nat) (cr : CustomRules) (t : IssueType)
    (bucket : List Issue)
    (hb : lookupA (validate.validate_and_metadata ext tryFrom rg max_issues cr).validations
      t = some bucket) :
    ∃ md n,
      (validate.validate_and_metadata ext tryFrom rg max_issues cr).metadata = some md ∧
      lookupA md.issues_count t = some n ∧
      n = ((validate.all_issues ext tryFrom rg cr).filter
        (fun i => i.issue_type = t)).length ∧
      bucket.length ≤ max_issues ∧ bucket.length ≤ n ∧
      (n ≤ max_issues → bucket.length = n) := by
  unfold validate.validate_and_metadata at hb ⊢
  rw [lookupA_map_snd] at hb
  obtain ⟨l, hl, hbl⟩ := Option.map_eq_some'.mp hb
  refine ⟨_, l.length, rfl, ?_, ?_, ?_⟩
  · rw [lookupA_map_snd, hl]; rfl
  · rw [lookupA_aggregate] at hl
    rcases hf : (validate.all_issues ext tryFrom rg cr).filter
        (fun i => i.issue_type = t) with _ | ⟨a, fs⟩ <;> rw [hf] at hl
    · cases hl
    · cases Option.some.inj hl; rw [hf]
  · subst hbl
    simp only [List.length_take]
    omega

/-- Witness for C1: a raw feed with no files at all and a failing linked
model; the `MissingMandatoryFile` bucket has five issues, below the limit of
seven, so its count equals its length. -/
theorem response_issues_count_witness :
    ∃ bucket, lookupA (validate.validate_and_metadata ext0 (fun _ => .error (.OtherError "x"))
        { rg0 with files := [] } 7 {}).validations .MissingMandatoryFile = some bucket ∧
      ∃ md n,
        (validate.validate_and_metadata ext0 (fun _ => .error (.OtherError "x"))
          { rg0 with files := [] } 7 {}).metadata = some md ∧
        lookupA md.issues_count .MissingMandatoryFile = some n ∧
        n = ((validate.all_issues ext0 (fun _ => .error (.OtherError "x"))
          { rg0 with files := [] } {}).filter
            (fun i => i.issue_type = .MissingMandatoryFile)).length ∧
        bucket.length ≤ 7 ∧ bucket.length ≤ n ∧ (n ≤ 7 → bucket.length = n) :=
  ⟨_, rfl, response_issues_count ext0 (fun _ => .error (.OtherError "x"))
    { rg0 with files := [] } 7 {} .MissingMandatoryFile _ rfl⟩

/-! ### Issue inventories of the rule modules (claims C2, C6, C7) -/

theorem foldl_invariant {σ : Type _} (Q : σ → Prop) (step : σ → α → σ) (l : List α)
    (m : σ) (hm : Q m) (hstep : ∀ s a, a ∈ l → Q s → Q (step s a)) :
    Q (l.foldl step m) := by
  induction l generalizing m with
  | nil => exact hm
  | cons a l ih =>
      exact ih (step m a) (hstep m a (.head _) hm) fun s b hb => hstep s b (.tail _ hb)

theorem foldl_entryUpdate_values [DecidableEq κ] (P : ν → Prop)
    (key : α → κ) (dflt : α → ν) (f : α → ν → ν) (l : List α) (m : List (κ × ν))
    (hm : ∀ kv ∈ m, P kv.2) (hd : ∀ a ∈ l, P (f a (dflt a)))
    (hf : ∀ a ∈ l, ∀ v, P v → P (f a v)) :
    ∀ kv ∈ l.foldl (fun m a => entryUpdate m (key a) (dflt a) (f a)) m, P kv.2 := by
  induction l generalizing m with
  | nil => exact hm
  | cons a l ih =>
      exact ih _ (entryUpdate_values P m (key a) (dflt a) (f a) hm (hd a (.head _))
          (hf a (.head _)))
        (fun b hb => hd b (.tail _ hb)) (fun b hb => hf b (.tail _ hb))

theorem cd_go_types [GtfsObj α] (l : List α) (ids : List String) :
    ∀ i ∈ cd_go l ids, i.severity = .Error ∧ i.issue_type = .DuplicateObjectId := by
  induction l generalizing ids with
  | nil => intro i hi; cases hi
  | cons o rest ih =>
      intro i hi
      unfold cd_go at hi
      rcases List.mem_append.mp hi with h | h
      · split_ifs at h
        · rcases List.mem_singleton.mp h with rfl; exact ⟨rfl, rfl⟩
        · cases h
      · exact ih _ i h

theorem check_shapes_duplicates_types (objects : Except GError (List Shape)) :
    ∀ i ∈ check_shapes_duplicates objects,
      i.severity = .Error ∧ i.issue_type = .DuplicateObjectId := by
  intro i hi
  unfold check_shapes_duplicates at hi
  obtain ⟨p, -, rfl⟩ := List.mem_map.mp hi
  exact ⟨rfl, rfl⟩

theorem raw_gtfs_validate_types (rg : RawGtfs) :
    ∀ i ∈ raw_gtfs.validate rg,
      i.severity = .Error ∧ i.issue_type = .DuplicateObjectId := by
  intro i hi
  unfold raw_gtfs.validate at hi
  rcases List.mem_append.mp hi with h | h
  · rcases List.mem_append.mp h with h | h
    · rcases List.mem_append.mp h with h | h
      · rcases List.mem_append.mp h with h | h
        · rcases List.mem_append.mp h with h | h
          · rcases List.mem_append.mp h with h | h
            · rcases List.mem_append.mp h with h | h
              · exact cd_go_types _ _ i h
              · exact cd_go_types _ _ i h
            · exact cd_go_types _ _ i h
          · exact cd_go_types _ _ i h
        · exact cd_go_types _ _ i h
      · exact cd_go_types _ _ i h
    · exact cd_go_types _ _ i h
  · exact check_shapes_duplicates_types _ i h

theorem check_ref_types (ids : invalid_reference.Ids) (id : String) (ot : ObjectType)
    (i : Issue) (h : ids.check_ref id ot = some i) :
    i.severity = .Fatal ∧ i.issue_type = .InvalidReference := by
  unfold invalid_reference.Ids.check_ref at h
  obtain ⟨l, -, h⟩ := Option.bind_eq_some.mp h
  by_cases hmem : id ∈ l
  · rw [if_pos hmem] at h; cases h
  · rw [if_neg hmem] at h
    cases Option.some.inj h
    exact ⟨rfl, rfl⟩

theorem mem_dedup_by_object_id (l : List Issue) :
    ∀ i ∈ invalid_reference.dedup_by_object_id l, i ∈ l := by
  intro i hi
  unfold invalid_reference.dedup_by_object_id at hi
  obtain ⟨kv, hkv, rfl⟩ := List.mem_map.mp hi
  exact foldl_entryUpdate_values (fun v : Issue => v ∈ l)
    (fun i : Issue => i.object_id) (fun i => i) (fun a _ => a) l []
    (fun kv hkv => absurd hkv (List.not_mem_nil kv))
    (fun a ha => ha) (fun a ha v _ => ha) kv hkv

theorem invalid_reference_validate_types (rg : RawGtfs) :
    ∀ i ∈ invalid_reference.validate rg,
      i.severity = .Fatal ∧ i.issue_type = .InvalidReference := by
  intro i hi
  unfold invalid_reference.validate at hi
  have hst : ∀ j ∈ (invalid_reference.Ids.new rg).check_stop_times rg.stop_times,
      j.severity = .Fatal ∧ j.issue_type = .InvalidReference := by
    intro j hj
    have hj' := mem_dedup_by_object_id _ j hj
    rcases List.mem_append.mp hj' with h | h <;>
    · obtain ⟨st, -, heq⟩ := List.mem_filterMap.mp h
      obtain ⟨k, hk, rfl⟩ := Option.map_eq_some'.mp heq
      obtain ⟨hs, ht⟩ := check_ref_types _ _ _ k hk
      exact ⟨hs, ht⟩
  have htr : ∀ j ∈ (invalid_reference.Ids.new rg).check_trips rg.trips,
      j.severity = .Fatal ∧ j.issue_type = .InvalidReference := by
    intro j hj
    have hj' := mem_dedup_by_object_id _ j hj
    rcases List.mem_append.mp hj' with h | h <;>
    · obtain ⟨tr, -, heq⟩ := List.mem_filterMap.mp h
      obtain ⟨k, hk, rfl⟩ := Option.map_eq_some'.mp heq
      obtain ⟨hs, ht⟩ := check_ref_types _ _ _ k hk
      exact ⟨hs, ht⟩
  have hro : ∀ j ∈ (invalid_reference.Ids.new rg).check_routes rg.routes,
      j.severity = .Fatal ∧ j.issue_type = .InvalidReference := by
    intro j hj
    have hj' := mem_dedup_by_object_id _ j hj
    obtain ⟨ro, -, heq⟩ := List.mem_filterMap.mp hj'
    obtain ⟨aid, -, heq2⟩ := Option.bind_eq_some.mp heq
    obtain ⟨k, hk, rfl⟩ := Option.map_eq_some'.mp heq2
    obtain ⟨hs, ht⟩ := check_ref_types _ _ _ k hk
    exact ⟨hs, ht⟩
  have hsp : ∀ j ∈ (invalid_reference.Ids.new rg).check_stops rg.stops,
      j.severity = .Fatal ∧ j.issue_type = .InvalidReference := by
    intro j hj
    have hj' := mem_dedup_by_object_id _ j hj
    obtain ⟨sp, -, heq⟩ := List.mem_filterMap.mp hj'
    obtain ⟨pid, -, heq2⟩ := Option.bind_eq_some.mp heq
    obtain ⟨k, hk, rfl⟩ := Option.map_eq_some'.mp heq2
    obtain ⟨hs, ht⟩ := check_ref_types _ _ _ k hk
    exact ⟨hs, ht⟩
  rcases List.mem_append.mp hi with h | h
  · rcases List.mem_append.mp h with h | h
    · rcases List.mem_append.mp h with h | h
      · exact hst i h
      · exact htr i h
    · exact hro i h
  · exact hsp i h

theorem file_presence_validate_types (rg : RawGtfs) :
    ∀ i ∈ file_presence.validate rg,
      (i.severity = .Fatal ∧ i.issue_type = .MissingMandatoryFile) ∨
      (i.severity = .Information ∧ i.issue_type = .ExtraFile) := by
  intro i hi
  unfold file_presence.validate at hi
  rcases List.mem_append.mp hi with h | h
  · unfold file_presence.missing_files at h
    obtain ⟨m, -, rfl⟩ := List.mem_map.mp h
    exact Or.inl ⟨rfl, rfl⟩
  · unfold file_presence.extra_files at h
    obtain ⟨f, -, rfl⟩ := List.mem_map.mp h
    exact Or.inr ⟨rfl, rfl⟩

theorem sub_folder_validate_types (rg : RawGtfs) :
    ∀ i ∈ sub_folder.validate rg,
      i.severity = .Error ∧ i.issue_type = .SubFolder := by
  intro i hi
  unfold sub_folder.validate at hi
  split at hi
  · rcases List.mem_singleton.mp hi with rfl; exact ⟨rfl, rfl⟩
  · cases hi

/-- All issues of the raw-level rule chain: their severity obeys the fatal
restriction and their type is neither `UnloadableModel` nor
`MissingAgencyId`. -/
theorem raw_issue_list_types (rg : RawGtfs) :
    ∀ i ∈ validate.raw_issue_list rg,
      pipeline_issue_ok i ∧ i.issue_type ≠ .UnloadableModel := by
  intro i hi
  unfold validate.raw_issue_list at hi
  rcases List.mem_append.mp hi with h | h
  · rcases List.mem_append.mp h with h | h
    · rcases List.mem_append.mp h with h | h
      · obtain ⟨hs, ht⟩ := raw_gtfs_validate_types rg i h
        refine ⟨⟨fun hf => ?_, fun hh => ?_⟩, fun hh => ?_⟩
        · rw [hs] at hf; cases hf
        · rw [ht] at hh; cases hh
        · rw [ht] at hh; cases hh
      · obtain ⟨hs, ht⟩ := invalid_reference_validate_types rg i h
        refine ⟨⟨fun _ => Or.inr (Or.inr (Or.inr ht)), fun hh => ?_⟩, fun hh => ?_⟩
        · rw [ht] at hh; cases hh
        · rw [ht] at hh; cases hh
    · rcases file_presence_validate_types rg i h with ⟨hs, ht⟩ | ⟨hs, ht⟩
      · refine ⟨⟨fun _ => Or.inr (Or.inr (Or.inl ht)), fun hh => ?_⟩, fun hh => ?_⟩
        · rw [ht] at hh; cases hh
        · rw [ht] at hh; cases hh
      · refine ⟨⟨fun hf => ?_, fun hh => ?_⟩, fun hh => ?_⟩
        · rw [hs] at hf; cases hf
        · rw [ht] at hh; cases hh
        · rw [ht] at hh; cases hh
  · obtain ⟨hs, ht⟩ := sub_folder_validate_types rg i h
    refine ⟨⟨fun hf => ?_, fun hh => ?_⟩, fun hh => ?_⟩
    · rw [hs] at hf; cases hf
    · rw [ht] at hh; cases hh
    · rw [ht] at hh; cases hh

theorem unused_stop_validate_ok (g : Gtfs) :
    ∀ i ∈ unused_stop.validate g, pipeline_issue_ok i := by
  intro i hi
  unfold unused_stop.validate at hi
  obtain ⟨s, -, rfl⟩ := List.mem_map.mp hi
  exact And.intro (fun hh => nomatch hh) (fun hh => nomatch hh)

theorem check_name_validate_ok (g : Gtfs) :
    ∀ i ∈ check_name.validate g, pipeline_issue_ok i := by
  intro i hi
  unfold check_name.validate at hi
  rcases List.mem_append.mp hi with h | h
  · rcases List.mem_append.mp h with h | h
    · rcases List.mem_append.mp h with h | h
      · obtain ⟨r, -, rfl⟩ := List.mem_map.mp h
        exact And.intro (fun hh => nomatch hh) (fun hh => nomatch hh)
      · obtain ⟨s, -, rfl⟩ := List.mem_map.mp h
        exact And.intro (fun hh => nomatch hh) (fun hh => nomatch hh)
    · obtain ⟨a, -, rfl⟩ := List.mem_map.mp h
      exact And.intro (fun hh => nomatch hh) (fun hh => nomatch hh)
  · obtain ⟨f, -, rfl⟩ := List.mem_map.mp h
    exact And.intro (fun hh => nomatch hh) (fun hh => nomatch hh)

theorem valid_id_ok [GtfsObj α] (o : α) (i : Issue) (h : check_id.valid_id o = some i) :
    pipeline_issue_ok i := by
  unfold check_id.valid_id at h
  split_ifs at h
  all_goals first
  | (cases Option.some.inj h
     exact And.intro (fun hh => nomatch hh) (fun hh => nomatch hh))
  | cases h

theorem check_id_validate_ok (g : Gtfs) :
    ∀ i ∈ check_id.validate g, pipeline_issue_ok i := by
  intro i hi
  dsimp only [check_id.validate] at hi
  have hchain : ∀ h : i ∈ g.routes.filterMap check_id.valid_id ++
      g.trips.filterMap check_id.valid_id ++ g.calendar.filterMap check_id.valid_id ++
      g.stops.filterMap check_id.valid_id ++
      ((g.shapes.filter fun p => p.1.isEmpty).map fun _ =>
        ({ severity := .Error, issue_type := .MissingId, object_id := "",
           object_type := some .Shape, object_name := none, related_objects := [],
           details := none, related_file := none, geojson := none } : Issue)),
      pipeline_issue_ok i := by
    intro h
    rcases List.mem_append.mp h with h | h
    · rcases List.mem_append.mp h with h | h
      · rcases List.mem_append.mp h with h | h
        · rcases List.mem_append.mp h with h | h
          · obtain ⟨o, -, ho⟩ := List.mem_filterMap.mp h
            exact valid_id_ok o i ho
          · obtain ⟨o, -, ho⟩ := List.mem_filterMap.mp h
            exact valid_id_ok o i ho
        · obtain ⟨o, -, ho⟩ := List.mem_filterMap.mp h
          exact valid_id_ok o i ho
      · obtain ⟨o, -, ho⟩ := List.mem_filterMap.mp h
        exact valid_id_ok o i ho
    · obtain ⟨p, -, rfl⟩ := List.mem_map.mp h
      exact And.intro (fun hh => nomatch hh) (fun hh => nomatch hh)
  split_ifs at hi
  · rcases List.mem_append.mp hi with h | h
    · obtain ⟨o, -, ho⟩ := List.mem_filterMap.mp h
      exact valid_id_ok o i ho
    · exact hchain h
  · exact hchain hi

theorem stops_validate_ok (g : Gtfs) :
    ∀ i ∈ stops.validate g, pipeline_issue_ok i := by
  intro i hi
  unfold stops.validate at hi
  rcases List.mem_append.mp hi with h | h
  · unfold stops.validate_coord at h
    rcases List.mem_append.mp h with h | h
    · obtain ⟨s, -, heq⟩ := List.mem_filterMap.mp h
      unfold stops.check_coord at heq
      split_ifs at heq
      all_goals first
      | (cases Option.some.inj heq
         exact And.intro (fun hh => nomatch hh) (fun hh => nomatch hh))
      | cases heq
    · obtain ⟨s, -, rfl⟩ := List.mem_map.mp h
      exact And.intro (fun hh => nomatch hh) (fun hh => nomatch hh)
  · unfold stops.validate_parent_id at h
    obtain ⟨s, -, heq⟩ := List.mem_filterMap.mp h
    obtain ⟨d, -, rfl⟩ := Option.map_eq_some'.mp heq
    split
    · exact And.intro (fun hh => nomatch hh) (fun hh => nomatch hh)
    · exact And.intro (fun hh => nomatch hh) (fun hh => nomatch hh)

theorem route_type_validate_ok (g : Gtfs) :
    ∀ i ∈ route_type.validate g, pipeline_issue_ok i := by
  intro i hi
  unfold route_type.validate at hi
  obtain ⟨p, -, rfl⟩ := List.mem_map.mp hi
  exact And.intro (fun hh => nomatch hh) (fun hh => nomatch hh)

theorem shapes_validate_ok (g : Gtfs) :
    ∀ i ∈ shapes.validate g, pipeline_issue_ok i := by
  intro i hi
  dsimp only [shapes.validate] at hi
  rcases List.mem_append.mp hi with h | h
  · rcases List.mem_append.mp h with h | h
    · rcases List.mem_append.mp h with h | h
      · rcases List.mem_append.mp h with h | h
        · obtain ⟨p, -, rfl⟩ := List.mem_map.mp h
          exact And.intro (fun hh => nomatch hh) (fun hh => nomatch hh)
        · obtain ⟨p, -, rfl⟩ := List.mem_map.mp h
          exact And.intro (fun hh => nomatch hh) (fun hh => nomatch hh)
      · obtain ⟨trip, -, heq⟩ := List.mem_filterMap.mp h
        unfold shapes.create_invalid_shape_id_issue at heq
        obtain ⟨sid, -, h2⟩ := Option.bind_eq_some.mp heq
        split_ifs at h2
        all_goals first
        | (cases Option.some.inj h2
           exact And.intro (fun hh => nomatch hh) (fun hh => nomatch hh))
        | cases h2
    · obtain ⟨sid, -, rfl⟩ := List.mem_map.mp h
      exact And.intro (fun hh => nomatch hh) (fun hh => nomatch hh)
  · obtain ⟨trip, -, rfl⟩ := List.mem_map.mp h
    exact And.intro (fun hh => nomatch hh) (fun hh => nomatch hh)

theorem agency_validate_ok (ext : Externals) (g : Gtfs) :
    ∀ i ∈ agency.validate ext g, pipeline_issue_ok i := by
  intro i hi
  unfold agency.validate at hi
  rcases List.mem_append.mp hi with h | h
  · rcases List.mem_append.mp h with h | h
    · obtain ⟨a, -, rfl⟩ := List.mem_map.mp h
      exact And.intro (fun hh => nomatch hh) (fun hh => nomatch hh)
    · obtain ⟨a, -, rfl⟩ := List.mem_map.mp h
      exact And.intro (fun hh => nomatch hh) (fun hh => nomatch hh)
  · obtain ⟨a, -, rfl⟩ := List.mem_map.mp h
    exact And.intro (fun hh => nomatch hh) (fun hh => nomatch hh)

theorem calendar_validate_ok (g : Gtfs) :
    ∀ i ∈ calendar.validate g, pipeline_issue_ok i := by
  intro i hi
  unfold calendar.validate at hi
  split_ifs at hi
  · rcases List.mem_singleton.mp hi with rfl
    exact And.intro (fun hh => nomatch hh) (fun hh => nomatch hh)
  · cases hi

theorem duplicate_stops_validate_ok (ext : Externals) (g : Gtfs) :
    ∀ i ∈ duplicate_stops.validate ext g, pipeline_issue_ok i := by
  intro i hi
  unfold duplicate_stops.validate at hi
  obtain ⟨p, -, rfl⟩ := List.mem_map.mp hi
  exact And.intro (fun hh => nomatch hh) (fun hh => nomatch hh)

theorem fare_attributes_validate_ok (ext : Externals) (g : Gtfs) :
    ∀ i ∈ fare_attributes.validate ext g, pipeline_issue_ok i := by
  intro i hi
  unfold fare_attributes.validate at hi
  rcases List.mem_append.mp hi with h | h
  · rcases List.mem_append.mp h with h | h
    · rcases List.mem_append.mp h with h | h
      · obtain ⟨f, -, rfl⟩ := List.mem_map.mp h
        exact And.intro (fun hh => nomatch hh) (fun hh => nomatch hh)
      · obtain ⟨f, -, rfl⟩ := List.mem_map.mp h
        exact And.intro (fun hh => nomatch hh) (fun hh => nomatch hh)
    · obtain ⟨f, -, rfl⟩ := List.mem_map.mp h
      exact And.intro (fun hh => nomatch hh) (fun hh => nomatch hh)
  · obtain ⟨f, -, rfl⟩ := List.mem_map.mp h
    exact And.intro (fun hh => nomatch hh) (fun hh => nomatch hh)

theorem feed_info_validate_ok (ext : Externals) (g : Gtfs) :
    ∀ i ∈ feed_info.validate ext g, pipeline_issue_ok i := by
  intro i hi
  unfold feed_info.validate at hi
  rcases List.mem_append.mp hi with h | h
  · rcases List.mem_append.mp h with h | h
    · rcases List.mem_append.mp h with h | h
      · obtain ⟨f, -, rfl⟩ := List.mem_map.mp h
        exact And.intro (fun hh => nomatch hh) (fun hh => nomatch hh)
      · obtain ⟨f, -, rfl⟩ := List.mem_map.mp h
        exact And.intro (fun hh => nomatch hh) (fun hh => nomatch hh)
    · obtain ⟨f, -, rfl⟩ := List.mem_map.mp h
      exact And.intro (fun hh => nomatch hh) (fun hh => nomatch hh)
  · obtain ⟨f, -, rfl⟩ := List.mem_map.mp h
    exact And.intro (fun hh => nomatch hh) (fun hh => nomatch hh)

theorem interpolated_stoptimes_validate_ok (g : Gtfs) :
    ∀ i ∈ interpolated_stoptimes.validate g, pipeline_issue_ok i := by
  intro i hi
  unfold interpolated_stoptimes.validate at hi
  obtain ⟨trip, -, heq⟩ := List.mem_filterMap.mp hi
  unfold interpolated_stoptimes.impossible_to_interpolate_st at heq
  split at heq
  · split_ifs at heq
    all_goals first
    | (cases Option.some.inj heq
       exact And.intro (fun hh => nomatch hh) (fun hh => nomatch hh))
    | cases heq
  · cases heq

theorem unusable_trip_validate_ok (g : Gtfs) :
    ∀ i ∈ unusable_trip.validate g, pipeline_issue_ok i := by
  intro i hi
  unfold unusable_trip.validate at hi
  obtain ⟨trip, -, heq⟩ := List.mem_filterMap.mp hi
  split_ifs at heq
  all_goals first
  | (cases Option.some.inj heq
     exact And.intro (fun hh => nomatch hh) (fun hh => nomatch hh))
  | cases heq

theorem clt_step_values (trip : Trip) (st : StopTime) (m : List (String × Issue))
    (hm : ∀ kv ∈ m, kv.2.severity = .Warning ∧
      kv.2.issue_type = .InvalidStopLocationTypeInTrip) :
    ∀ kv ∈ stop_times.clt_step trip m st,
      kv.2.severity = .Warning ∧ kv.2.issue_type = .InvalidStopLocationTypeInTrip := by
  unfold stop_times.clt_step
  split_ifs with h
  · refine entryUpdate_values (fun v : Issue => v.severity = .Warning ∧
      v.issue_type = .InvalidStopLocationTypeInTrip) m _ _ _ hm ?_ ?_
    · split_ifs <;> exact ⟨rfl, rfl⟩
    · intro v hv
      split_ifs <;> exact hv
  · exact hm

theorem stop_times_validate_ok (g : Gtfs) :
    ∀ i ∈ stop_times.validate g, pipeline_issue_ok i := by
  intro i hi
  unfold stop_times.validate at hi
  rcases List.mem_append.mp hi with h | h
  · rcases List.mem_append.mp h with h | h
    · unfold stop_times.check_location_type at h
      obtain ⟨kv, hkv, rfl⟩ := List.mem_map.mp h
      have hval := foldl_invariant
        (fun m : List (String × Issue) => ∀ kv ∈ m, kv.2.severity = .Warning ∧
          kv.2.issue_type = .InvalidStopLocationTypeInTrip)
        (fun m trip => trip.stop_times.foldl (stop_times.clt_step trip) m) g.trips []
        (fun kv h => absurd h (List.not_mem_nil kv))
        (fun m trip _ hm => foldl_invariant _ (stop_times.clt_step trip)
          trip.stop_times m hm (fun m' st _ hm' => clt_step_values trip st m' hm'))
      obtain ⟨hs, ht⟩ := hval kv hkv
      refine ⟨fun hh => ?_, fun hh => ?_⟩
      · rw [hs] at hh; cases hh
      · rw [ht] at hh; cases hh
    · unfold stop_times.check_valid_stop_sequence at h
      obtain ⟨trip, -, heq⟩ := List.mem_filterMap.mp h
      dsimp only at heq
      split_ifs at heq
      cases Option.some.inj heq
      have hfold := foldl_invariant
        (fun issue : Issue => issue.severity = .Error ∧
          issue.issue_type = .DuplicateStopSequence)
        (fun (issue : Issue) (st : StopTime) => issue.push_related_object st.stop)
        (((windows2 trip.stop_times).filterMap fun p =>
          if p.1.stop_sequence = p.2.stop_sequence then some [p.1, p.2] else none).flatten)
        (Issue.new_with_obj .Error .DuplicateStopSequence trip) ⟨rfl, rfl⟩
        (fun (s : Issue) (a : StopTime) _ hs => hs)
      obtain ⟨hs, ht⟩ := hfold
      refine ⟨fun hh => ?_, fun hh => ?_⟩
      · rw [hs] at hh; cases hh
      · rw [ht] at hh; cases hh
  · unfold stop_times.check_times_increase at h
    obtain ⟨trip, -, h2⟩ := List.mem_flatMap.mp h
    obtain ⟨st, -, heq⟩ := List.mem_filterMap.mp h2
    split at heq
    · split_ifs at heq
      all_goals first
      | (cases Option.some.inj heq
         exact And.intro (fun hh => nomatch hh) (fun hh => nomatch hh))
      | cases heq
    · cases heq

theorem issue_kind_cases (d t ms : ℚ) (sev : Severity) (it : IssueType) (s : String)
    (h : duration_distance.issue_kind d t ms = some (sev, it, s)) :
    (sev = .Information ∨ sev = .Warning) ∧ it ≠ .MissingAgencyId := by
  unfold duration_distance.issue_kind at h
  split_ifs at h
  all_goals first
  | (simp only [Option.some.injEq, Prod.mk.injEq] at h
     obtain ⟨rfl, rfl, rfl⟩ := h
     exact And.intro (by simp) (fun hh => nomatch hh))
  | cases h

theorem route_append_preserves (i : Issue) (r : Route) :
    (duration_distance.route_append i r).severity = i.severity ∧
    (duration_distance.route_append i r).issue_type = i.issue_type := by
  unfold duration_distance.route_append
  split_ifs <;> exact ⟨rfl, rfl⟩

theorem process_pair_values (ext : Externals) (cr : CustomRules) (route : Route)
    (m : List (duration_distance.SpeedKey × Issue)) (p : StopTime × StopTime)
    (hm : ∀ kv ∈ m, (kv.2.severity = .Information ∨ kv.2.severity = .Warning) ∧
      kv.2.issue_type ≠ .MissingAgencyId) :
    ∀ kv ∈ duration_distance.process_pair ext cr route m p,
      (kv.2.severity = .Information ∨ kv.2.severity = .Warning) ∧
      kv.2.issue_type ≠ .MissingAgencyId := by
  intro kv hkv
  unfold duration_distance.process_pair at hkv
  rcases hdd : duration_distance.distance_and_duration ext p.1 p.2 with _ | ⟨d, t⟩ <;>
    simp only [hdd] at hkv
  · exact hm kv hkv
  · rcases hik : duration_distance.issue_kind d t (max_speed route.route_type cr)
      with _ | ⟨sev, it, s⟩ <;> simp only [hik] at hkv
    · exact hm kv hkv
    · obtain ⟨hsev, hit⟩ := issue_kind_cases d t _ sev it s hik
      refine entryUpdate_values (fun v : Issue =>
        (v.severity = .Information ∨ v.severity = .Warning) ∧
          v.issue_type ≠ .MissingAgencyId) m _ _ _ hm ?_ ?_ kv hkv
      · obtain ⟨h1, h2⟩ := route_append_preserves
          (duration_distance.base_issue sev it p.1.stop p.2.stop s) route
        refine ⟨?_, ?_⟩
        · rw [h1]; exact hsev
        · rw [h2]; exact hit
      · intro v hv
        obtain ⟨h1, h2⟩ := route_append_preserves v route
        refine ⟨?_, ?_⟩
        · rw [h1]; exact hv.1
        · rw [h2]; exact hv.2

theorem speed_map_values (ext : Externals) (cr : CustomRules) (g : Gtfs)
    (trips : List Trip) (m res : List (duration_distance.SpeedKey × Issue))
    (hm : ∀ kv ∈ m, (kv.2.severity = .Information ∨ kv.2.severity = .Warning) ∧
      kv.2.issue_type ≠ .MissingAgencyId)
    (h : duration_distance.speed_map ext cr g trips m = .ok res) :
    ∀ kv ∈ res, (kv.2.severity = .Information ∨ kv.2.severity = .Warning) ∧
      kv.2.issue_type ≠ .MissingAgencyId := by
  induction trips generalizing m with
  | nil =>
      unfold duration_distance.speed_map at h
      cases Except.ok.inj h
      exact hm
  | cons trip rest ih =>
      unfold duration_distance.speed_map at h
      rcases hr : g.get_route trip.route_id with e | route <;> rw [hr] at h
      · cases h
      · refine ih _ ?_ h
        unfold duration_distance.process_trip
        exact foldl_invariant _ (duration_distance.process_pair ext cr route) _ m hm
          (fun m' p _ hm' => process_pair_values ext cr route m' p hm')

theorem duration_distance_validate_ok (ext : Externals) (g : Gtfs) (cr : CustomRules) :
    ∀ i ∈ duration_distance.validate ext g cr, pipeline_issue_ok i := by
  intro i hi
  unfold duration_distance.validate at hi
  rcases hvs : duration_distance.validate_speeds ext g cr with e | issues <;>
    rw [hvs] at hi
  · rcases List.mem_singleton.mp hi with rfl
    exact ⟨fun _ => Or.inr (Or.inr (Or.inr rfl)), fun hh => nomatch hh⟩
  · unfold duration_distance.validate_speeds at hvs
    rcases hsm : duration_distance.speed_map ext cr g g.trips [] with e | mres <;>
      rw [hsm] at hvs
    · cases hvs
    · cases Except.ok.inj hvs
      obtain ⟨kv, hkv, rfl⟩ := List.mem_map.mp hi
      obtain ⟨hs, ht⟩ := speed_map_values ext cr g g.trips [] mres
        (fun kv h => absurd h (List.not_mem_nil kv)) hsm kv hkv
      refine ⟨fun hh => ?_, ht⟩
      rcases hs with hs | hs <;> (rw [hs] at hh; cases hh)

/-- The linked-level rule chain only emits issues obeying the pipeline
invariant. -/
theorem linked_issue_list_ok (ext : Externals) (g : Gtfs) (cr : CustomRules) :
    ∀ i ∈ validate.linked_issue_list ext g cr, pipeline_issue_ok i := by
  intro i hi
  unfold validate.linked_issue_list at hi
  rcases List.mem_append.mp hi with h | h
  · rcases List.mem_append.mp h with h | h
    · rcases List.mem_append.mp h with h | h
      · rcases List.mem_append.mp h with h | h
        · rcases List.mem_append.mp h with h | h
          · rcases List.mem_append.mp h with h | h
            · rcases List.mem_append.mp h with h | h
              · rcases List.mem_append.mp h with h | h
                · rcases List.mem_append.mp h with h | h
                  · rcases List.mem_append.mp h with h | h
                    · rcases List.mem_append.mp h with h | h
                      · rcases List.mem_append.mp h with h | h
                        · rcases List.mem_append.mp h with h | h
                          · rcases List.mem_append.mp h with h | h
                            · exact unused_stop_validate_ok g i h
                            · exact duration_distance_validate_ok ext g cr i h
                          · exact check_name_validate_ok g i h
                        · exact check_id_validate_ok g i h
                      · exact stops_validate_ok g i h
                    · exact route_type_validate_ok g i h
                  · exact shapes_validate_ok g i h
                · exact agency_validate_ok ext g i h
              · exact calendar_validate_ok g i h
            · exact duplicate_stops_validate_ok ext g i h
          · exact fare_attributes_validate_ok ext g i h
        · exact feed_info_validate_ok ext g i h
      · exact stop_times_validate_ok g i h
    · exact interpolated_stoptimes_validate_ok g i h
  · exact unusable_trip_validate_ok g i h

/-- `create_unloadable_model_error` always yields a Fatal `UnloadableModel`
issue with populated details. -/
theorem create_unloadable_facts (e : GError) :
    (validate.create_unloadable_model_error e).severity = .Fatal ∧
    (validate.create_unloadable_model_error e).issue_type = .UnloadableModel ∧
    (validate.create_unloadable_model_error e).details.isSome = true := by
  cases e <;> exact ⟨rfl, rfl, rfl⟩

/-- Every issue the pipeline aggregates obeys the pipeline invariant. -/
theorem all_issues_ok (ext : Externals) (tryFrom : RawGtfs → Except GError Gtfs)
    (rg : RawGtfs) (cr : CustomRules) :
    ∀ i ∈ validate.all_issues ext tryFrom rg cr, pipeline_issue_ok i := by
  intro i hi
  unfold validate.all_issues at hi
  rcases htf : tryFrom rg with e | g <;> rw [htf] at hi
  · rcases List.mem_append.mp hi with h | h
    · exact (raw_issue_list_types rg i h).1
    · rcases List.mem_singleton.mp h with rfl
      obtain ⟨hs, ht, -⟩ := create_unloadable_facts e
      exact ⟨fun _ => Or.inr (Or.inl ht), fun hh => by rw [ht] at hh; cases hh⟩
  · obtain ⟨j, hj, rfl⟩ := List.mem_map.mp hi
    have hok : pipeline_issue_ok j := by
      rcases List.mem_append.mp hj with h | h
      · exact (raw_issue_list_types rg j h).1
      · exact linked_issue_list_ok ext g cr j h
    exact hok

/-- Every issue inside an aggregated bucket comes from the issue list. -/
theorem aggregate_sub (issues : List Issue) :
    ∀ tb ∈ validate.aggregate issues, ∀ i ∈ tb.2, i ∈ issues := by
  intro tb htb
  exact foldl_entryUpdate_values (fun l : List Issue => ∀ i ∈ l, i ∈ issues)
    (fun i : Issue => i.issue_type) (fun _ => []) (fun a l => l ++ [a]) issues []
    (fun kv hkv => absurd hkv (List.not_mem_nil kv))
    (fun a ha => by
      intro i hi
      rcases List.mem_append.mp hi with h | h
      · cases h
      · rcases List.mem_singleton.mp h with rfl; exact ha)
    (fun a ha l hl => by
      intro i hi
      rcases List.mem_append.mp hi with h | h
      · exact hl i h
      · rcases List.mem_singleton.mp h with rfl; exact ha) tb htb

/-! ### Claim C6: Fatal severities -/

/-- C6: every issue in any `Response` the core produces (via `process`) with
severity Fatal has one of the four fatal issue types: `InvalidArchive`,
`UnloadableModel`, `MissingMandatoryFile`, `InvalidReference`. -/
theorem fatal_issue_types (ext : Externals) (tryFrom : RawGtfs → Except GError Gtfs)
    (raw : Except GError RawGtfs) (max_issues : Nat) (cr : CustomRules) :
    ∀ tb ∈ (validate.process ext tryFrom raw max_issues cr).validations, ∀ i ∈ tb.2,
      i.severity = .Fatal →
        i.issue_type = .InvalidArchive ∨ i.issue_type = .UnloadableModel ∨
        i.issue_type = .MissingMandatoryFile ∨ i.issue_type = .InvalidReference := by
  intro tb htb i hi hf
  unfold validate.process at htb
  cases raw with
  | error e =>
      rcases List.mem_singleton.mp htb with rfl
      rcases List.mem_singleton.mp hi with rfl
      exact Or.inl rfl
  | ok rg =>
      unfold validate.validate_and_metadata at htb
      obtain ⟨p, hp, rfl⟩ := List.mem_map.mp htb
      have hsub : i ∈ p.2 := List.take_subset _ _ hi
      have hall := aggregate_sub (validate.all_issues ext tryFrom rg cr) p hp i hsub
      exact (all_issues_ok ext tryFrom rg cr i hall).1 hf

/-- Witness for C6: a broken archive yields a single Fatal `InvalidArchive`
issue, which indeed carries one of the four fatal types. -/
theorem fatal_issue_types_witness :
    ((Issue.new .Fatal .InvalidArchive "").withDetails "bad").severity = .Fatal ∧
      (((Issue.new .Fatal .InvalidArchive "").withDetails "bad").issue_type = .InvalidArchive ∨
       ((Issue.new .Fatal .InvalidArchive "").withDetails "bad").issue_type = .UnloadableModel ∨
       ((Issue.new .Fatal .InvalidArchive "").withDetails "bad").issue_type = .MissingMandatoryFile ∨
       ((Issue.new .Fatal .InvalidArchive "").withDetails "bad").issue_type = .InvalidReference) :=
  ⟨rfl, fatal_issue_types ext0 (fun _ => .error (.OtherError "m"))
    (.error (.OtherError "bad")) 5 {}
    (.InvalidArchive, [(Issue.new .Fatal .InvalidArchive "").withDetails "bad"])
    (List.mem_singleton.mpr rfl) _ (List.mem_singleton.mpr rfl) rfl⟩

/-! ### Claim C7: MissingAgencyId and the pipeline -/

/-- C7 (counterexample): with two agencies, a successfully loading model and
a route whose `agency_id` is unset, the pipeline of src/validate.rs emits no
`MissingAgencyId` issue at all — it runs `route_type::validate`, not
`routes::validate`. -/
theorem pipeline_missing_agency_counterexample :
    g7.agencies.length > 1 ∧ routeNoAgency ∈ g7.routes ∧
      routeNoAgency.agency_id = none ∧
      (fun rg : RawGtfs => (Except.ok g7 : Except GError Gtfs)) rg7 = .ok g7 ∧
      ¬ ∃ tb ∈ (validate.validate_and_metadata ext0 (fun _ => .ok g7)
          rg7 1000 {}).validations, ∃ i ∈ tb.2, i.issue_type = .MissingAgencyId := by
  refine ⟨by decide, List.mem_singleton.mpr rfl, rfl, rfl, ?_⟩
  have hempty : (validate.validate_and_metadata ext0 (fun _ => .ok g7)
      rg7 1000 {}).validations = [] := rfl
  rintro ⟨tb, htb, -⟩
  rw [hempty] at htb
  cases htb

/-- C7 (amended): `routes::validate` does emit a `MissingAgencyId` Error for
every route with an unset agency id when there is more than one agency — but
that validator is not part of the pipeline: `validate_and_metadata` (which
runs `route_type::validate` instead) never emits `MissingAgencyId`. -/
theorem missing_agency_id_routes_only (g : Gtfs) (hag : g.agencies.length > 1)
    (route : Route) (hr : route ∈ g.routes) (hnone : route.agency_id = none) :
    (∃ i ∈ routes.validate g, i.issue_type = .MissingAgencyId ∧
        i.severity = .Error ∧ i.object_id = route.id) ∧
    ∀ ext tryFrom rg max_issues cr,
      ∀ tb ∈ (validate.validate_and_metadata ext tryFrom rg max_issues cr).validations,
        ∀ i ∈ tb.2, i.issue_type ≠ .MissingAgencyId := by
  constructor
  · refine ⟨(Issue.new_with_obj .Error .MissingAgencyId route).withDetails
      ("The agency ID must be filled for route \x27" ++ route.id ++ "\x27"), ?_, rfl, rfl, rfl⟩
    unfold routes.validate
    refine List.mem_append.mpr (Or.inr ?_)
    rw [if_pos hag]
    exact List.mem_map.mpr ⟨route, List.mem_filter.mpr ⟨hr, by simp [hnone]⟩, rfl⟩
  · intro ext tryFrom rg max_issues cr tb htb i hi
    unfold validate.validate_and_metadata at htb
    obtain ⟨p, hp, rfl⟩ := List.mem_map.mp htb
    have hsub : i ∈ p.2 := List.take_subset _ _ hi
    have hall := aggregate_sub (validate.all_issues ext tryFrom rg cr) p hp i hsub
    exact (all_issues_ok ext tryFrom rg cr i hall).2

/-- Witness for the amended C7 at `g7` / `routeNoAgency`. -/
theorem missing_agency_id_routes_only_witness :
    g7.agencies.length > 1 ∧ routeNoAgency ∈ g7.routes ∧
      routeNoAgency.agency_id = none ∧
      ((∃ i ∈ routes.validate g7, i.issue_type = .MissingAgencyId ∧
          i.severity = .Error ∧ i.object_id = routeNoAgency.id) ∧
        ∀ ext tryFrom rg max_issues cr,
          ∀ tb ∈ (validate.validate_and_metadata ext tryFrom rg max_issues cr).validations,
            ∀ i ∈ tb.2, i.issue_type ≠ .MissingAgencyId) :=
  ⟨by decide, List.mem_singleton.mpr rfl, rfl,
    missing_agency_id_routes_only g7 (by decide) routeNoAgency
      (List.mem_singleton.mpr rfl) rfl⟩

/-! ### Claim C2: the UnloadableModel response -/

/-- C2: when the raw feed parses but linked-model construction fails, the
`Response` holds exactly one `UnloadableModel` issue — Fatal, with details
populated from the parser error and `related_file` populated (file name,
line number, headers and values) when the failure is a CSV row error — and
all raw-level issues are still present (provided no bucket overflows
`max_issues`). -/
theorem unloadable_model_response (ext : Externals)
    (tryFrom : RawGtfs → Except GError Gtfs) (rg : RawGtfs) (max_issues : Nat)
    (cr : CustomRules) (e : GError) (htf : tryFrom rg = .error e)
    (hmax : 1 ≤ max_issues)
    (hcount : ∀ t, ((validate.raw_issue_list rg).filter
      (fun i => i.issue_type = t)).length ≤ max_issues) :
    lookupA (validate.validate_and_metadata ext tryFrom rg max_issues cr).validations
        .UnloadableModel = some [validate.create_unloadable_model_error e] ∧
    (validate.create_unloadable_model_error e).severity = .Fatal ∧
    (validate.create_unloadable_model_error e).issue_type = .UnloadableModel ∧
    (validate.create_unloadable_model_error e).details.isSome = true ∧
    (∀ fn pos line msg, e = .CSVError fn pos line msg →
      ∃ rf, (validate.create_unloadable_model_error e).related_file = some rf ∧
        rf.file_name = fn ∧
        rf.line = pos.bind fun p => line.map fun l =>
          { line_number := p, headers := l.headers, values := l.values }) ∧
    (∀ i ∈ validate.raw_issue_list rg, ∃ bucket,
      lookupA (validate.validate_and_metadata ext tryFrom rg max_issues cr).validations
        i.issue_type = some bucket ∧ i ∈ bucket) := by
  have hall : validate.all_issues ext tryFrom rg cr =
      validate.raw_issue_list rg ++ [validate.create_unloadable_model_error e] := by
    unfold validate.all_issues
    rw [htf]
  have hrawfilter : (validate.raw_issue_list rg).filter
      (fun i => i.issue_type = IssueType.UnloadableModel) = [] := by
    rw [List.filter_eq_nil]
    intro i hi
    have := (raw_issue_list_types rg i hi).2
    simpa using this
  obtain ⟨hsev, htype, hdet⟩ := create_unloadable_facts e
  refine ⟨?_, hsev, htype, hdet, ?_, ?_⟩
  · unfold validate.validate_and_metadata
    rw [lookupA_map_snd, lookupA_aggregate, hall, List.filter_append, hrawfilter]
    have hu : ([validate.create_unloadable_model_error e].filter
        (fun i => i.issue_type = IssueType.UnloadableModel)) =
        [validate.create_unloadable_model_error e] := by
      simp [htype]
    rw [List.nil_append, hu]
    obtain ⟨k, rfl⟩ := Nat.exists_eq_add_of_le hmax
    simp
  · rintro fn pos line msg rfl
    exact ⟨_, rfl, rfl, rfl⟩
  · intro i hi
    have hne : i.issue_type ≠ .UnloadableModel := (raw_issue_list_types rg i hi).2
    have hufilter : ([validate.create_unloadable_model_error e].filter
        (fun j => j.issue_type = i.issue_type)) = [] := by
      simp only [List.filter_eq_nil]
      intro j hj
      rcases List.mem_singleton.mp hj with rfl
      simp only [htype, decide_eq_true_eq]
      exact fun hh => hne hh.symm
    have hmem : i ∈ (validate.raw_issue_list rg).filter
        (fun j => j.issue_type = i.issue_type) :=
      List.mem_filter.mpr ⟨hi, by simp⟩
    refine ⟨((validate.raw_issue_list rg).filter
      (fun j => j.issue_type = i.issue_type)), ?_, ?_⟩
    · have hfilters : (validate.all_issues ext tryFrom rg cr).filter
          (fun j => j.issue_type = i.issue_type) =
          (validate.raw_issue_list rg).filter (fun j => j.issue_type = i.issue_type) := by
        rw [hall, List.filter_append, hufilter, List.append_nil]
      have hne : (validate.all_issues ext tryFrom rg cr).filter
          (fun j => j.issue_type = i.issue_type) ≠ [] := by
        rw [hfilters]
        intro hnil
        rw [hnil] at hmem
        cases hmem
      unfold validate.validate_and_metadata
      rw [lookupA_map_snd, lookupA_aggregate_of_ne _ _ hne, hfilters]
      simp only [Option.map_some']
      rw [List.take_of_length_le (hcount i.issue_type)]
    · exact hmem

/-- Witness for C2 with a concrete CSV row failure. -/
theorem unloadable_model_response_witness :
    (fun _ : RawGtfs => (Except.error csvErr0 : Except GError Gtfs)) rg0 = .error csvErr0 ∧
      1 ≤ 10 ∧
      (∀ t : IssueType, ((validate.raw_issue_list rg0).filter
        (fun i => i.issue_type = t)).length ≤ 10) ∧
      lookupA (validate.validate_and_metadata ext0
        (fun _ => .error csvErr0) rg0 10 {}).validations .UnloadableModel =
        some [validate.create_unloadable_model_error csvErr0] := by
  have hc : ∀ t : IssueType, ((validate.raw_issue_list rg0).filter
      (fun i => i.issue_type = t)).length ≤ 10 := by
    intro t
    rw [show validate.raw_issue_list rg0 = [] from rfl]
    simp
  exact ⟨rfl, by norm_num, hc,
    (unloadable_model_response ext0 (fun _ => .error csvErr0) rg0 10 {} csvErr0
      rfl (by norm_num) hc).1⟩

/-! ### Claim C5: speed-issue aggregation -/

/-- `process_pair` is `apply_occ` of the pair's occurrence, when there is
one. -/
theorem process_pair_eq_occ (ext : Externals) (cr : CustomRules) (route : Route)
    (m : List (duration_distance.SpeedKey × Issue)) (p : StopTime × StopTime) :
    duration_distance.process_pair ext cr route m p =
      match duration_distance.pair_occ ext cr route p with
      | none => m
      | some o => duration_distance.apply_occ m o := by
  unfold duration_distance.process_pair duration_distance.pair_occ
  rcases hdd : duration_distance.distance_and_duration ext p.1 p.2 with _ | ⟨d, t⟩
  · rfl
  · simp only [Option.some_bind]
    rcases hik : duration_distance.issue_kind d t (max_speed route.route_type cr)
        with _ | ⟨sev, it, s⟩
    · rfl
    · rfl

/-- `process_trip` folds the trip's occurrences. -/
theorem process_trip_eq_occs (ext : Externals) (cr : CustomRules) (route : Route)
    (m : List (duration_distance.SpeedKey × Issue)) (stop_times : List StopTime) :
    duration_distance.process_trip ext cr route m stop_times =
      (duration_distance.trip_occs ext cr route stop_times).foldl
        duration_distance.apply_occ m := by
  unfold duration_distance.process_trip duration_distance.trip_occs
  generalize windows2 stop_times = ps
  induction ps generalizing m with
  | nil => rfl
  | cons p ps ih =>
      simp only [List.foldl_cons, List.filterMap_cons]
      rw [process_pair_eq_occ]
      rcases hpo : duration_distance.pair_occ ext cr route p with _ | o
      · exact ih m
      · exact ih (duration_distance.apply_occ m o)

/-- `speed_map` succeeds exactly when every route lookup does, and then the
final keyed map is the `apply_occ` fold of all occurrences. -/
theorem speed_map_eq_occs (ext : Externals) (cr : CustomRules) (g : Gtfs) :
    ∀ (trips : List Trip) (m res : List (duration_distance.SpeedKey × Issue)),
      duration_distance.speed_map ext cr g trips m = .ok res →
      ∃ os, duration_distance.gtfs_occs ext cr g trips = some os ∧
        res = os.foldl duration_distance.apply_occ m := by
  intro trips
  induction trips with
  | nil =>
      intro m res h
      unfold duration_distance.speed_map at h
      cases Except.ok.inj h
      exact ⟨[], rfl, rfl⟩
  | cons trip rest ih =>
      intro m res h
      unfold duration_distance.speed_map at h
      rcases hr : g.get_route trip.route_id with e | route <;> rw [hr] at h
      · cases h
      · obtain ⟨os, hos, hres⟩ := ih _ res h
        refine ⟨duration_distance.trip_occs ext cr route trip.stop_times ++ os, ?_, ?_⟩
        · unfold duration_distance.gtfs_occs
          rw [hr, hos]
          rfl
        · rw [hres, process_trip_eq_occs, List.foldl_append]

/-- The grouping key is symmetric in the two stops. -/
theorem speed_key_comm (dep arr : Stop) (it : IssueType) (sev : Severity) :
    duration_distance.speed_key dep arr it sev =
      duration_distance.speed_key arr dep it sev := by
  unfold duration_distance.speed_key
  rcases lt_trichotomy dep.id arr.id with h | h | h
  · rw [if_pos h, if_neg (asymm h)]
  · rw [h]
  · rw [if_neg (asymm h), if_pos h]

theorem keys_entryUpdate [DecidableEq κ] (m : List (κ × ν)) (k : κ) (dflt : ν)
    (f : ν → ν) :
    (entryUpdate m k dflt f).map Prod.fst =
      if k ∈ m.map Prod.fst then m.map Prod.fst else m.map Prod.fst ++ [k] := by
  induction m with
  | nil => simp [entryUpdate]
  | cons kv rest ih =>
      obtain ⟨k', v⟩ := kv
      by_cases h : k' = k
      · subst h; simp [entryUpdate]
      · have hne : ¬ k = k' := fun hh => h hh.symm
        simp only [entryUpdate, if_neg h, List.map_cons, ih, List.mem_cons]
        by_cases hk : k ∈ rest.map Prod.fst
        · rw [if_pos hk, if_pos (Or.inr hk)]
        · have hk2 : ¬ (k = k' ∨ k ∈ rest.map Prod.fst) := by
            rintro (hh | hh)
            · exact hne hh
            · exact hk hh
          rw [if_neg hk, if_neg hk2]
          rfl

theorem keys_nodup_entryUpdate [DecidableEq κ] (m : List (κ × ν)) (k : κ) (dflt : ν)
    (f : ν → ν) (h : (m.map Prod.fst).Nodup) :
    ((entryUpdate m k dflt f).map Prod.fst).Nodup := by
  rw [keys_entryUpdate]
  split_ifs with hk
  · exact h
  · simp [List.nodup_append, h, hk]

theorem keys_nodup_fold_apply (os : List duration_distance.SpeedOcc)
    (m : List (duration_distance.SpeedKey × Issue)) (h : (m.map Prod.fst).Nodup) :
    ((os.foldl duration_distance.apply_occ m).map Prod.fst).Nodup :=
  foldl_invariant (fun m : List (duration_distance.SpeedKey × Issue) =>
      (m.map Prod.fst).Nodup)
    duration_distance.apply_occ os m h
    (fun m' o _ hm => keys_nodup_entryUpdate m' (duration_distance.occ_key o)
      (duration_distance.occ_base o) _ hm)

theorem mem_keys_fold_apply (os : List duration_distance.SpeedOcc)
    (m : List (duration_distance.SpeedKey × Issue)) (k : duration_distance.SpeedKey) :
    k ∈ (os.foldl duration_distance.apply_occ m).map Prod.fst ↔
      k ∈ m.map Prod.fst ∨ ∃ o ∈ os, duration_distance.occ_key o = k := by
  induction os generalizing m with
  | nil => simp
  | cons o os ih =>
      simp only [List.foldl_cons]
      rw [ih]
      have hstep : k ∈ (duration_distance.apply_occ m o).map Prod.fst ↔
          k ∈ m.map Prod.fst ∨ duration_distance.occ_key o = k := by
        unfold duration_distance.apply_occ
        rw [keys_entryUpdate]
        split_ifs with hk
        · constructor
          · exact Or.inl
          · rintro (hm | rfl)
            · exact hm
            · exact hk
        · rw [List.mem_append, List.mem_singleton]
          constructor
          · rintro (hm | rfl)
            · exact Or.inl hm
            · exact Or.inr rfl
          · rintro (hm | rfl)
            · exact Or.inl hm
            · exact Or.inr rfl
      rw [hstep]
      simp only [List.mem_cons]
      constructor
      · rintro ((hm | hko) | ⟨o', ho', hko⟩)
        · exact Or.inl hm
        · exact Or.inr ⟨o, Or.inl rfl, hko⟩
        · exact Or.inr ⟨o', Or.inr ho', hko⟩
      · rintro (hm | ⟨o', (rfl | ho'), hko⟩)
        · exact Or.inl (Or.inl hm)
        · exact Or.inl (Or.inr hko)
        · exact Or.inr ⟨o', ho', hko⟩

/-- Looking up a key in the occurrence fold (from the empty map): the first
matching occurrence creates the issue, every matching occurrence applies the
route append. -/
theorem lookup_fold_apply (os : List duration_distance.SpeedOcc)
    (k : duration_distance.SpeedKey) :
    lookupA (os.foldl duration_distance.apply_occ []) k =
      match os.filter (fun o => duration_distance.occ_key o = k) with
      | [] => none
      | o1 :: rest => some ((o1 :: rest).foldl
          (fun acc o => duration_distance.route_append acc o.route)
          (duration_distance.occ_base o1)) := by
  rcases hf : os.filter (fun o => duration_distance.occ_key o = k) with _ | ⟨o1, rest⟩ <;>
  · have h := lookupA_foldl_entryUpdate_none duration_distance.occ_key
      duration_distance.occ_base (fun o i => duration_distance.route_append i o.route)
      os [] k rfl
    rw [hf] at h
    exact h

/-- Invariant of the per-key route-append fold: the subject stays the first
occurrence's departure stop, the first related object stays its arrival
stop, and the appended related objects are pairwise-distinct routes. -/
theorem route_fold_facts (o1 : duration_distance.SpeedOcc)
    (rest : List duration_distance.SpeedOcc) :
    ((o1 :: rest).foldl (fun acc o => duration_distance.route_append acc o.route)
        (duration_distance.occ_base o1)).object_id = o1.dep.id ∧
    ((o1 :: rest).foldl (fun acc o => duration_distance.route_append acc o.route)
        (duration_distance.occ_base o1)).severity = o1.sev ∧
    ((o1 :: rest).foldl (fun acc o => duration_distance.route_append acc o.route)
        (duration_distance.occ_base o1)).issue_type = o1.itype ∧
    ((o1 :: rest).foldl (fun acc o => duration_distance.route_append acc o.route)
        (duration_distance.occ_base o1)).details = some o1.details ∧
    ((o1 :: rest).foldl (fun acc o => duration_distance.route_append acc o.route)
        (duration_distance.occ_base o1)).related_objects.head? =
      some { id := o1.arr.id, object_type := some .Stop, name := some o1.arr.name } ∧
    (∀ ro ∈ ((o1 :: rest).foldl (fun acc o => duration_distance.route_append acc o.route)
        (duration_distance.occ_base o1)).related_objects.tail,
      ro.object_type = some ObjectType.Route) ∧
    (((o1 :: rest).foldl (fun acc o => duration_distance.route_append acc o.route)
        (duration_distance.occ_base o1)).related_objects.tail.map
      RelatedObject.id).Nodup := by
  refine foldl_invariant (fun i : Issue =>
      i.object_id = o1.dep.id ∧ i.severity = o1.sev ∧ i.issue_type = o1.itype ∧
      i.details = some o1.details ∧
      i.related_objects.head? =
        some { id := o1.arr.id, object_type := some .Stop, name := some o1.arr.name } ∧
      (∀ ro ∈ i.related_objects.tail, ro.object_type = some ObjectType.Route) ∧
      (i.related_objects.tail.map RelatedObject.id).Nodup)
    (fun acc o => duration_distance.route_append acc o.route) (o1 :: rest)
    (duration_distance.occ_base o1)
    ⟨rfl, rfl, rfl, rfl, rfl, fun ro hro => absurd hro (List.not_mem_nil ro),
      List.nodup_nil⟩
    ?_
  intro i o _ hp
  obtain ⟨hid, hsev, hit, hdet, hhead, htail, hnd⟩ := hp
  dsimp only
  unfold duration_distance.route_append
  split_ifs with hguard
  · exact ⟨hid, hsev, hit, hdet, hhead, htail, hnd⟩
  · obtain ⟨a, rest', hrel⟩ : ∃ a rest', i.related_objects = a :: rest' := by
      rcases hrelV : i.related_objects with _ | ⟨a, r⟩
      · rw [hrelV] at hhead; simp at hhead
      · exact ⟨a, r, rfl⟩
    rw [hrel] at hhead htail hnd
    simp only [List.head?_cons, Option.some.injEq] at hhead
    simp only [List.tail_cons] at htail hnd
    have hnotmem : o.route.id ∉ rest'.map RelatedObject.id := by
      intro hmem
      obtain ⟨ro, hro, hroid⟩ := List.mem_map.mp hmem
      refine hguard (List.any_eq_true.mpr ⟨ro, ?_, ?_⟩)
      · rw [hrel]; exact List.mem_cons_of_mem _ hro
      · simp [hroid, htail ro hro]
    unfold Issue.push_related_object
    dsimp only
    refine ⟨hid, hsev, hit, hdet, ?_, ?_, ?_⟩
    · rw [hrel, List.cons_append, List.head?_cons, hhead]
    · rw [hrel, List.cons_append, List.tail_cons]
      intro ro hro
      rcases List.mem_append.mp hro with hh | hh
      · exact htail ro hh
      · rw [List.mem_singleton.mp hh]
        rfl
    · rw [hrel, List.cons_append, List.tail_cons, List.map_append, List.map_cons,
        List.map_nil]
      refine List.nodup_append.mpr ⟨hnd, List.nodup_singleton _, ?_⟩
      intro x hx hx'
      rw [List.mem_singleton.mp hx'] at hx
      exact hnotmem hx

/-- Claim C5: `validate_speeds` aggregates speed-rule issues by the key
(unordered stop pair, issue type, severity): whenever the trip loop
succeeds, the resulting map is the occurrence fold, its keys are exactly the
occurrence keys without duplicates, the key is symmetric in the two stops
(so A→B and B→A collapse), and each key's issue is built from the key's
first occurrence — departure stop as subject, arrival stop as the first
related object — with the routes of the key's occurrences (never the trips)
appended to `related_objects` as pairwise-distinct `Route`-typed entries. -/
theorem speed_issue_aggregation (ext : Externals) (cr : CustomRules) (g : Gtfs)
    (m : List (duration_distance.SpeedKey × Issue))
    (hok : duration_distance.speed_map ext cr g g.trips [] = .ok m) :
    ∃ os, duration_distance.gtfs_occs ext cr g g.trips = some os ∧
      m = os.foldl duration_distance.apply_occ [] ∧
      (m.map Prod.fst).Nodup ∧
      (∀ k, k ∈ m.map Prod.fst ↔ ∃ o ∈ os, duration_distance.occ_key o = k) ∧
      (∀ dep arr it sev, duration_distance.speed_key dep arr it sev =
        duration_distance.speed_key arr dep it sev) ∧
      ∀ k i, lookupA m k = some i →
        ∃ o1 rest,
          os.filter (fun o => duration_distance.occ_key o = k) = o1 :: rest ∧
          i = (o1 :: rest).foldl
            (fun acc o => duration_distance.route_append acc o.route)
            (duration_distance.occ_base o1) ∧
          i.object_id = o1.dep.id ∧ i.severity = o1.sev ∧ i.issue_type = o1.itype ∧
          i.related_objects.head? =
            some { id := o1.arr.id, object_type := some .Stop,
                   name := some o1.arr.name } ∧
          (∀ ro ∈ i.related_objects.tail, ro.object_type = some ObjectType.Route) ∧
          (i.related_objects.tail.map RelatedObject.id).Nodup := by
  obtain ⟨os, hos, hm⟩ := speed_map_eq_occs ext cr g g.trips [] m hok
  refine ⟨os, hos, hm, ?_, ?_, ?_, ?_⟩
  · rw [hm]
    exact keys_nodup_fold_apply os [] (by simp)
  · intro k
    rw [hm, mem_keys_fold_apply]
    simp
  · intro dep arr it sev
    exact speed_key_comm dep arr it sev
  · intro k i hi
    rw [hm, lookup_fold_apply] at hi
    rcases hf : os.filter (fun o => duration_distance.occ_key o = k) with _ | ⟨o1, rest⟩
    · rw [hf] at hi
      exact Option.noConfusion
        (show (none : Option Issue) = some i from hi)
    · rw [hf] at hi
      have hiv := Option.some.inj hi
      subst hiv
      obtain ⟨h1, h2, h3, _, h5, h6, h7⟩ := route_fold_facts o1 rest
      exact ⟨o1, rest, rfl, rfl, h1, h2, h3, h5, h6, h7⟩

theorem speed_issue_aggregation_witness :
    ∃ m, duration_distance.speed_map ext0 {} g5 g5.trips [] = Except.ok m ∧
      ∃ os, duration_distance.gtfs_occs ext0 {} g5 g5.trips = some os ∧
        m = os.foldl duration_distance.apply_occ [] ∧ (m.map Prod.fst).Nodup := by
  refine ⟨_, rfl, ?_⟩
  obtain ⟨os, hos, hm, hnd, _, _, _⟩ := speed_issue_aggregation ext0 {} g5 _ rfl
  exact ⟨os, hos, hm, hnd⟩

end TV
